import Mathlib

/-!
Verification development for the excalimaid ingestion core
(src/excalidraw.py): scene data model with wire encoding, micro-parsers,
the SVG path-data parser and the element reconstruction engine.

Modelling conventions (shallow embedding of the Python source):
* Python floats are modelled as exact rationals.  Where the source relies
  on IEEE double behaviour the evaluated result is embedded and the
  evaluation is documented at the definition.
* Python exceptions are modelled by the error monad below; the distinct
  exception classes the source dispatches on become constructors.
* Randomness (uuid ids) is modelled by a deterministic supply of ids
  "fresh-0", "fresh-1", ... threaded in a state monad; the source draws a
  fresh id at exactly the program points where this model does, so the
  supply reproduces the call order of random_id() and of the default
  element constructor.  seed, versionNonce and updated are drawn from
  process randomness and the clock in the source; no claim depends on
  their values, so the model fixes them to 0.
-/

/-- The Python exception classes the source can raise and dispatches on. -/
inductive PyErr where
  | indexError
  | valueError (msg : String)
  | keyError (msg : String)
  | assertionError (msg : String)
  | attributeError (msg : String)
  | typeError (msg : String)
  | exception (msg : String)
deriving DecidableEq, Repr

deriving instance DecidableEq for Except

/-- State-and-error monad: a deterministic id supply (the counter) plus
Python exception propagation. -/
def M (α : Type) : Type := Nat → Except PyErr (α × Nat)

instance : Monad M where
  pure a := fun s => .ok (a, s)
  bind x f := fun s =>
    match x s with
    | .ok (a, s') => f a s'
    | .error e => .error e

/-- Lift a pure Except computation into the monad. -/
def M.lift (x : Except PyErr α) : M α := fun s =>
  match x with
  | .ok a => .ok (a, s)
  | .error e => .error e

/-- A fresh identifier from the supply; models random_id() in the source
(uuid4().hex[:16]), which is unique within a run. -/
def random_id : M String := fun s => .ok ("fresh-" ++ toString s, s + 1)

/-! ### Python numeric primitives -/

/-- Python round-half-to-even of a rational to an integer. -/
def pyHalfEven (y : ℚ) : ℤ :=
  let f := ⌊y⌋
  let r := y - f
  if r < 1/2 then f
  else if 1/2 < r then f + 1
  else if f % 2 = 0 then f else f + 1

/-- Python round(x, 5): round half to even at five decimal digits. -/
def pyRound5 (q : ℚ) : ℚ := (pyHalfEven (q * 100000) : ℚ) / 100000

/-- Python int() applied to a number: truncation toward zero. -/
def pyTrunc (q : ℚ) : ℤ := if 0 ≤ q then ⌊q⌋ else ⌈q⌉

/-! ### Reducible string helpers

The core String functions split, splitOn, replace, trim, toLower,
contains, startsWith and takeWhile are compiled by well-founded recursion
over byte positions and do not compute by kernel reduction, so the
embedding re-implements them over the character list; each mirrors the
library function it replaces. -/

/-- String.split: cut at every character satisfying p, keeping empty
pieces. -/
def chSplitPred (p : Char → Bool) : List Char → List Char → List (List Char)
  | [], acc => [acc.reverse]
  | c :: rest, acc =>
    if p c then acc.reverse :: chSplitPred p rest []
    else chSplitPred p rest (c :: acc)

def strSplitPred (s : String) (p : Char → Bool) : List String :=
  (chSplitPred p s.data []).map String.mk

/-- String.splitOn: cut at every non-overlapping occurrence of the
separator, left to right.  The fuel starts at the list length and each
step consumes at least one character. -/
def chSplitOnF (sep : List Char) : Nat → List Char → List Char → List (List Char)
  | _, [], acc => [acc.reverse]
  | 0, cs, acc => [acc.reverse ++ cs]
  | fuel + 1, c :: rest, acc =>
    if sep.isPrefixOf (c :: rest) then
      acc.reverse :: chSplitOnF sep fuel ((c :: rest).drop sep.length) []
    else chSplitOnF sep fuel rest (c :: acc)

def strSplitOn (s : String) (sep : String) : List String :=
  if sep.data.isEmpty then [s]
  else (chSplitOnF sep.data s.data.length s.data []).map String.mk

/-- String.replace: replace every non-overlapping occurrence, left to
right. -/
def chReplaceF (pat rep : List Char) : Nat → List Char → List Char
  | _, [] => []
  | 0, cs => cs
  | fuel + 1, c :: rest =>
    if pat.isPrefixOf (c :: rest) then
      rep ++ chReplaceF pat rep fuel ((c :: rest).drop pat.length)
    else c :: chReplaceF pat rep fuel rest

def strReplace (s pat rep : String) : String :=
  if pat.data.isEmpty then s
  else String.mk (chReplaceF pat.data rep.data s.data.length s.data)

/-- String.trim: surrounding whitespace removed. -/
def strTrim (s : String) : String :=
  String.mk (((s.data.dropWhile Char.isWhitespace).reverse.dropWhile Char.isWhitespace).reverse)

/-- str.lower() of Python on the ASCII strings this program handles. -/
def strLower (s : String) : String :=
  String.mk (s.data.map Char.toLower)

def strContains (s : String) (c : Char) : Bool :=
  s.data.contains c

def digitsVal (cs : List Char) : ℕ :=
  cs.foldl (fun a c => a * 10 + (c.toNat - 48)) 0

/-- Helper for pyFloat: parse mantissa and optional exponent from the
character list, returning the value.  Accepts [digits][.digits][(e|E)[sign]digits]
with at least one mantissa digit, mirroring the decimal forms Python
float() accepts on the strings this program encounters (the model does
not accept inf, nan, hex or underscore separators). -/
def pyFloatCore (cs : List Char) : Option ℚ :=
  let ipart := cs.takeWhile Char.isDigit
  let rest1 := cs.dropWhile Char.isDigit
  let (fpart, rest2) :=
    match rest1 with
    | '.' :: t => (t.takeWhile Char.isDigit, t.dropWhile Char.isDigit)
    | _ => ([], rest1)
  if ipart.isEmpty ∧ fpart.isEmpty then none
  else
    let mant : ℚ := (digitsVal ipart : ℚ) + (digitsVal fpart : ℚ) / ((10 : ℚ) ^ fpart.length)
    match rest2 with
    | [] => some mant
    | e :: t =>
      if e = 'e' ∨ e = 'E' then
        let (esign, t2) :=
          match t with
          | '-' :: t' => (true, t')
          | '+' :: t' => (false, t')
          | _ => (false, t)
        let edig := t2.takeWhile Char.isDigit
        let erest := t2.dropWhile Char.isDigit
        if edig.isEmpty ∨ ¬erest.isEmpty then none
        else some (mant * (10 : ℚ) ^ (if esign then -(digitsVal edig : ℤ) else (digitsVal edig : ℤ)))
      else none

/-- Python float(s) on a string: strips surrounding whitespace, optional
sign, then a decimal numeral.  Returns none where Python raises ValueError. -/
def pyFloat (s : String) : Option ℚ :=
  match (strTrim s).data with
  | '-' :: t => (pyFloatCore t).map (fun q => -q)
  | '+' :: t => pyFloatCore t
  | t => pyFloatCore t

/-- Python float(s), raising ValueError on failure. -/
def pyFloatE (s : String) : Except PyErr ℚ :=
  match pyFloat s with
  | some q => .ok q
  | none => .error (.valueError ("could not convert string to float: " ++ s))

/-! ### Enumerations of the scene data model (class TypeEnum etc.) -/

inductive TypeEnum where
  | arrow | diamond | ellipse | freedraw | image | line | rectangle | text
deriving DecidableEq, Repr

def TypeEnum.value : TypeEnum → String
  | .arrow => "arrow"
  | .diamond => "diamond"
  | .ellipse => "ellipse"
  | .freedraw => "freedraw"
  | .image => "image"
  | .line => "line"
  | .rectangle => "rectangle"
  | .text => "text"

def TypeEnum.ofValue : String → Option TypeEnum
  | "arrow" => some .arrow
  | "diamond" => some .diamond
  | "ellipse" => some .ellipse
  | "freedraw" => some .freedraw
  | "image" => some .image
  | "line" => some .line
  | "rectangle" => some .rectangle
  | "text" => some .text
  | _ => none

inductive Arrowhead where
  | dot | arrow | bar | triangle
deriving DecidableEq, Repr

def Arrowhead.value : Arrowhead → String
  | .dot => "dot"
  | .arrow => "arrow"
  | .bar => "bar"
  | .triangle => "triangle"

def Arrowhead.ofValue : String → Option Arrowhead
  | "dot" => some .dot
  | "arrow" => some .arrow
  | "bar" => some .bar
  | "triangle" => some .triangle
  | _ => none

inductive Style where
  | crossHatch | hachure | solid
deriving DecidableEq, Repr

def Style.value : Style → String
  | .crossHatch => "cross-hatch"
  | .hachure => "hachure"
  | .solid => "solid"

def Style.ofValue : String → Option Style
  | "cross-hatch" => some .crossHatch
  | "hachure" => some .hachure
  | "solid" => some .solid
  | _ => none

inductive StrokeStyle where
  | solid | dashed | dotted
deriving DecidableEq, Repr

def StrokeStyle.value : StrokeStyle → String
  | .solid => "solid"
  | .dashed => "dashed"
  | .dotted => "dotted"

def StrokeStyle.ofValue : String → Option StrokeStyle
  | "solid" => some .solid
  | "dashed" => some .dashed
  | "dotted" => some .dotted
  | _ => none

inductive StrokeSharpness where
  | round | sharp
deriving DecidableEq, Repr

def StrokeSharpness.value : StrokeSharpness → String
  | .round => "round"
  | .sharp => "sharp"

def StrokeSharpness.ofValue : String → Option StrokeSharpness
  | "round" => some .round
  | "sharp" => some .sharp
  | _ => none

inductive TextAlign where
  | center | left | right
deriving DecidableEq, Repr

def TextAlign.value : TextAlign → String
  | .center => "center"
  | .left => "left"
  | .right => "right"

def TextAlign.ofValue : String → Option TextAlign
  | "center" => some .center
  | "left" => some .left
  | "right" => some .right
  | _ => none

inductive VerticalAlign where
  | bottom | middle | top
deriving DecidableEq, Repr

def VerticalAlign.value : VerticalAlign → String
  | .bottom => "bottom"
  | .middle => "middle"
  | .top => "top"

def VerticalAlign.ofValue : String → Option VerticalAlign
  | "bottom" => some .bottom
  | "middle" => some .middle
  | "top" => some .top
  | _ => none

/-! ### Scene data model entities -/

structure BoundElement where
  id : String
  type : TypeEnum
deriving DecidableEq, Repr

structure Binding where
  element_id : String
  focus : ℚ
  gap : ℚ
deriving DecidableEq, Repr

/-- dataclass Element of the source, with the same fields and defaults.
Fields drawn from randomness or the clock in the source (id, seed,
version_nonce, updated) are documented at Element.mkDefault. -/
structure Element where
  type : TypeEnum
  x : ℚ := 0
  y : ℚ := 0
  width : ℚ := 0
  height : ℚ := 0
  id : String := ""
  fill_style : Style := .hachure
  stroke_width : ℚ := 1
  stroke_style : StrokeStyle := .solid
  roughness : ℤ := 0
  opacity : ℤ := 100
  stroke_sharpness : StrokeSharpness := .sharp
  seed : ℤ := 0
  version : ℤ := 1
  version_nonce : ℤ := 0
  is_deleted : Bool := false
  updated : ℤ := 0
  angle : ℤ := 0
  background_color : String := "transparent"
  stroke_color : String := "#000000"
  group_ids : List String := []
  bound_elements : Option (List BoundElement) := none
  link : Option String := none
  points : Option (List (ℚ × ℚ)) := none
  last_committed_point : Option (ℚ × ℚ) := none
  start_binding : Option Binding := none
  end_binding : Option Binding := none
  start_arrowhead : Option Arrowhead := none
  end_arrowhead : Option Arrowhead := none
  text : Option String := none
  font_size : Option ℚ := none
  font_family : Option ℤ := none
  text_align : Option TextAlign := none
  vertical_align : Option VerticalAlign := none
  baseline : Option ℚ := none
  container_id : Option String := none
  original_text : Option String := none
  pressures : Option (List ℚ) := none
  simulate_pressure : Option Bool := none
  status : Option String := none
  file_id : Option String := none
  scale : Option (List ℚ) := none
deriving DecidableEq, Repr

/-- Constructing cls(type) in the source: default field values, a fresh
random id; seed, version_nonce and updated are random/clock values in the
source, fixed to 0 here (no claim depends on them). -/
def Element.mkDefault (t : TypeEnum) : M Element := do
  let i ← random_id
  pure { type := t, id := i }

structure AppState where
  view_background_color : String := "#ffffff"
  grid_size : Option ℤ := none
deriving DecidableEq, Repr

structure File where
  mime_type : String
  id : String
  data_url : String
  created : ℤ
deriving DecidableEq, Repr

structure Excalidraw where
  elements : List Element := []
  app_state : AppState := {}
  files : List (String × File) := []
  source : String := "https://nottheswimmer.org"
  version : ℤ := 2
  type : String := "excalidraw"
deriving DecidableEq, Repr

/-! ### Wire representation (the JSON objects produced by to_json)

A wire object is modelled as a record whose optional fields are present
(some) or absent (none); JSON null for gridSize is kept inside the
(always present) field.  Binding wires carry the same three numbers as a
Binding under renamed keys, so the Binding record doubles as its wire
form; BoundElement carries an enumeration and gets a separate wire record. -/

structure BoundElementWire where
  id : String
  type : String
deriving DecidableEq, Repr

structure AppStateWire where
  viewBackgroundColor : String
  gridSize : Option ℤ
deriving DecidableEq, Repr

structure FileWire where
  mimeType : String
  id : String
  dataURL : String
  created : ℤ
deriving DecidableEq, Repr

structure ElementWire where
  id : String
  type : String
  x : ℚ
  y : ℚ
  width : ℚ
  height : ℚ
  angle : ℤ
  fillStyle : String
  strokeWidth : ℚ
  strokeStyle : String
  roughness : ℤ
  opacity : ℤ
  groupIds : List String
  strokeSharpness : String
  seed : ℤ
  version : ℤ
  versionNonce : ℤ
  isDeleted : Bool
  updated : ℤ
  backgroundColor : String
  strokeColor : String
  boundElements : Option (List BoundElementWire) := none
  link : Option String := none
  points : Option (List (ℚ × ℚ)) := none
  lastCommittedPoint : Option (ℚ × ℚ) := none
  startBinding : Option Binding := none
  endBinding : Option Binding := none
  startArrowhead : Option String := none
  endArrowhead : Option String := none
  text : Option String := none
  fontSize : Option ℚ := none
  fontFamily : Option ℤ := none
  textAlign : Option String := none
  verticalAlign : Option String := none
  baseline : Option ℚ := none
  containerId : Option String := none
  originalText : Option String := none
  pressures : Option (List ℚ) := none
  simulatePressure : Option Bool := none
  status : Option String := none
  fileId : Option String := none
  scale : Option (List ℚ) := none
deriving DecidableEq, Repr

structure ExcalidrawWire where
  type : String
  version : ℤ
  source : String
  elements : List ElementWire
  appState : Option AppStateWire
  files : List (String × FileWire)
deriving DecidableEq, Repr

/-- Python truthiness gate for optional emission, `if self.field: obj[k] = ...`:
a set value is emitted only when it is truthy according to p. -/
def pyKeep (o : Option α) (p : α → Bool) : Option α :=
  match o with
  | some v => if p v then some v else none
  | none => none

def strTruthy (s : String) : Bool := s ≠ ""

def listTruthy (l : List α) : Bool := ¬l.isEmpty

def numTruthy (q : ℚ) : Bool := q ≠ 0

def intTruthy (n : ℤ) : Bool := n ≠ 0

def boolTruthy (b : Bool) : Bool := b

def BoundElement.to_json (be : BoundElement) : BoundElementWire :=
  { id := be.id, type := be.type.value }

def BoundElement.from_json (w : BoundElementWire) : Except PyErr BoundElement :=
  match TypeEnum.ofValue w.type with
  | some t => .ok { id := w.id, type := t }
  | none => .error (.valueError ("not a valid TypeEnum: " ++ w.type))

/-- Element.to_json of the source: required fields always, each optional
field present exactly when its value is Python-truthy. -/
def Element.to_json (e : Element) : ElementWire :=
  { id := e.id
    type := e.type.value
    x := e.x
    y := e.y
    width := e.width
    height := e.height
    angle := e.angle
    fillStyle := e.fill_style.value
    strokeWidth := e.stroke_width
    strokeStyle := e.stroke_style.value
    roughness := e.roughness
    opacity := e.opacity
    groupIds := e.group_ids
    strokeSharpness := e.stroke_sharpness.value
    seed := e.seed
    version := e.version
    versionNonce := e.version_nonce
    isDeleted := e.is_deleted
    updated := e.updated
    backgroundColor := e.background_color
    strokeColor := e.stroke_color
    boundElements := (pyKeep e.bound_elements listTruthy).map (List.map BoundElement.to_json)
    link := pyKeep e.link strTruthy
    points := pyKeep e.points listTruthy
    lastCommittedPoint := e.last_committed_point
    startBinding := e.start_binding
    endBinding := e.end_binding
    startArrowhead := e.start_arrowhead.map Arrowhead.value
    endArrowhead := e.end_arrowhead.map Arrowhead.value
    text := pyKeep e.text strTruthy
    fontSize := pyKeep e.font_size numTruthy
    fontFamily := pyKeep e.font_family intTruthy
    textAlign := e.text_align.map TextAlign.value
    verticalAlign := e.vertical_align.map VerticalAlign.value
    baseline := pyKeep e.baseline numTruthy
    containerId := pyKeep e.container_id strTruthy
    originalText := pyKeep e.original_text strTruthy
    pressures := pyKeep e.pressures listTruthy
    simulatePressure := pyKeep e.simulate_pressure boolTruthy
    status := pyKeep e.status strTruthy
    fileId := pyKeep e.file_id strTruthy
    scale := pyKeep e.scale listTruthy }

/-- Enum parse for a required wire field; Python Enum(x) raises ValueError
on an unknown value. -/
def enumE (f : String → Option β) (s : String) : Except PyErr β :=
  match f s with
  | some b => .ok b
  | none => .error (.valueError ("not a valid enum value: " ++ s))

/-- Enum parse for an optional wire field. -/
def enumOptE (f : String → Option β) (o : Option String) : Except PyErr (Option β) :=
  match o with
  | none => .ok none
  | some s => (enumE f s).map some

/-- Element.from_json of the source: required fields (enums validated),
optional fields populated exactly when present on the wire. -/
def Element.from_json (w : ElementWire) : Except PyErr Element := do
  let ty ← enumE TypeEnum.ofValue w.type
  let fs ← enumE Style.ofValue w.fillStyle
  let ss ← enumE StrokeStyle.ofValue w.strokeStyle
  let ssh ← enumE StrokeSharpness.ofValue w.strokeSharpness
  let bes ← match w.boundElements with
    | none => pure none
    | some l => (l.mapM BoundElement.from_json).map some
  let sa ← enumOptE Arrowhead.ofValue w.startArrowhead
  let ea ← enumOptE Arrowhead.ofValue w.endArrowhead
  let ta ← enumOptE TextAlign.ofValue w.textAlign
  let va ← enumOptE VerticalAlign.ofValue w.verticalAlign
  pure { type := ty
         x := w.x
         y := w.y
         width := w.width
         height := w.height
         id := w.id
         fill_style := fs
         stroke_width := w.strokeWidth
         stroke_style := ss
         roughness := w.roughness
         opacity := w.opacity
         stroke_sharpness := ssh
         seed := w.seed
         version := w.version
         version_nonce := w.versionNonce
         is_deleted := w.isDeleted
         updated := w.updated
         angle := w.angle
         background_color := w.backgroundColor
         stroke_color := w.strokeColor
         group_ids := w.groupIds
         bound_elements := bes
         link := w.link
         points := w.points
         last_committed_point := w.lastCommittedPoint
         start_binding := w.startBinding
         end_binding := w.endBinding
         start_arrowhead := sa
         end_arrowhead := ea
         text := w.text
         font_size := w.fontSize
         font_family := w.fontFamily
         text_align := ta
         vertical_align := va
         baseline := w.baseline
         container_id := w.containerId
         original_text := w.originalText
         pressures := w.pressures
         simulate_pressure := w.simulatePressure
         status := w.status
         file_id := w.fileId
         scale := w.scale }

def AppState.to_json (a : AppState) : AppStateWire :=
  { viewBackgroundColor := a.view_background_color, gridSize := a.grid_size }

def AppState.from_json (w : AppStateWire) : AppState :=
  { view_background_color := w.viewBackgroundColor, grid_size := w.gridSize }

def File.to_json (f : File) : FileWire :=
  { mimeType := f.mime_type, id := f.id, dataURL := f.data_url, created := f.created }

def File.from_json (w : FileWire) : File :=
  { mime_type := w.mimeType, id := w.id, data_url := w.dataURL, created := w.created }

def Excalidraw.to_json (d : Excalidraw) : ExcalidrawWire :=
  { type := d.type
    version := d.version
    source := d.source
    elements := d.elements.map Element.to_json
    appState := some d.app_state.to_json
    files := d.files.map (fun kv => (kv.1, kv.2.to_json)) }

/-- Excalidraw.from_json of the source; version and source fall back to
defaults when absent, which a wire produced by to_json never exercises. -/
def Excalidraw.from_json (w : ExcalidrawWire) : Except PyErr Excalidraw := do
  let es ← w.elements.mapM Element.from_json
  pure { type := w.type
         version := w.version
         source := w.source
         elements := es
         app_state := match w.appState with
           | some a => AppState.from_json a
           | none => {}
         files := w.files.map (fun kv => (kv.1, File.from_json kv.2)) }

/-- A set optional value is truthy (an unset one passes vacuously). -/
def optTruthy (o : Option α) (p : α → Bool) : Bool :=
  match o with
  | some v => p v
  | none => true

/-- Truthiness of every optional field of an element: the condition under
which to_json emits each field that is set. -/
def Element.optsTruthy (e : Element) : Bool :=
  optTruthy e.bound_elements listTruthy &&
  optTruthy e.link strTruthy &&
  optTruthy e.points listTruthy &&
  optTruthy e.text strTruthy &&
  optTruthy e.font_size numTruthy &&
  optTruthy e.font_family intTruthy &&
  optTruthy e.baseline numTruthy &&
  optTruthy e.container_id strTruthy &&
  optTruthy e.original_text strTruthy &&
  optTruthy e.pressures listTruthy &&
  optTruthy e.simulate_pressure boolTruthy &&
  optTruthy e.status strTruthy &&
  optTruthy e.file_id strTruthy &&
  optTruthy e.scale listTruthy

/-! ### The markup tree (BeautifulSoup model)

A node is a tag with a name, attributes and children, or a text node.
bs4 find/find_all search the descendants in document (pre)order;
recursive=False restricts to direct children.  The class attribute is
multi-valued: matching a class means the token list contains it. -/

inductive SvgNode where
  | tag (name : String) (attrs : List (String × String)) (children : List SvgNode)
  | txt (s : String)

def SvgNode.children : SvgNode → List SvgNode
  | .tag _ _ cs => cs
  | .txt _ => []

def SvgNode.attr? (n : SvgNode) (k : String) : Option String :=
  match n with
  | .tag _ attrs _ => (attrs.find? (fun p => p.1 = k)).map (fun p => p.2)
  | .txt _ => none

/-- tag[k] in bs4: KeyError when the attribute is absent. -/
def SvgNode.reqAttr (n : SvgNode) (k : String) : Except PyErr String :=
  match n.attr? k with
  | some v => .ok v
  | none => .error (.keyError k)

def SvgNode.named (n : SvgNode) (name : String) : Bool :=
  match n with
  | .tag nm _ _ => nm = name
  | .txt _ => false

/-- The multi-valued class attribute as a token list. -/
def SvgNode.classTokens (n : SvgNode) : List String :=
  (strSplitPred ((n.attr? "class").getD "") Char.isWhitespace).filter (fun t => t ≠ "")

def SvgNode.hasClass (n : SvgNode) (c : String) : Bool :=
  n.classTokens.contains c

/-- Fuel bound for the pre-order worklist traversals below: one unit per
visited node, far beyond the node count of any representable markup
document (traversal is exact for every document with at most 10^15
nodes).  Structural recursion on the fuel lets concrete traversals
compute by reduction, which a size measure on this nested tree type
would not. -/
def traversalFuel : Nat := 1000000000000000

/-- Pre-order worklist traversal: a visited tag pushes its children in
front of its siblings. -/
def descWork : Nat → List SvgNode → List SvgNode
  | 0, _ => []
  | _, [] => []
  | fuel + 1, c :: cs =>
    match c with
    | .txt s => .txt s :: descWork fuel cs
    | .tag n a ch => .tag n a ch :: descWork fuel (ch ++ cs)

/-- All descendants of a node in document (pre)order, text nodes
included (bs4 .descendants). -/
def SvgNode.descendants (n : SvgNode) : List SvgNode :=
  match n with
  | .txt _ => []
  | .tag _ _ cs => descWork traversalFuel cs

def innerTextWork : Nat → List SvgNode → String
  | 0, _ => ""
  | _, [] => ""
  | fuel + 1, c :: cs =>
    match c with
    | .txt s => s ++ innerTextWork fuel cs
    | .tag _ _ ch => innerTextWork fuel (ch ++ cs)

/-- bs4 get_text(): the concatenation of every descendant string. -/
def SvgNode.innerText (n : SvgNode) : String :=
  match n with
  | .txt s => s
  | .tag _ _ cs => innerTextWork traversalFuel cs

/-- bs4 find(pred): first matching descendant in document order. -/
def SvgNode.find? (n : SvgNode) (p : SvgNode → Bool) : Option SvgNode :=
  n.descendants.find? p

/-- bs4 find_all(pred): all matching descendants in document order. -/
def SvgNode.findAll (n : SvgNode) (p : SvgNode → Bool) : List SvgNode :=
  n.descendants.filter p

/-- bs4 find_all(pred, recursive=False): matching direct children. -/
def SvgNode.findDirect (n : SvgNode) (p : SvgNode → Bool) : List SvgNode :=
  n.children.filter p

def isNamed (name : String) : SvgNode → Bool := fun n => n.named name

def isGWithClass (c : String) : SvgNode → Bool := fun n => n.named "g" && n.hasClass c

/-! ### Micro-parsers (parse_style, parse_transform, size_attr_to_float) -/

inductive StyleVal where
  | num (q : ℚ)
  | str (s : String)
deriving DecidableEq, Repr

/-- Python dict assignment out[k] = v: overwrite in place or append. -/
def assocSet (l : List (String × StyleVal)) (k : String) (v : StyleVal) :
    List (String × StyleVal) :=
  match l with
  | [] => [(k, v)]
  | (k', v') :: t => if k' = k then (k, v) :: t else (k', v') :: assocSet t k v

def styleGet (l : List (String × StyleVal)) (k : String) : Option StyleVal :=
  (l.find? (fun p => p.1 = k)).map (fun p => p.2)

/-- parse_style of the source: split on semicolons, split each fragment at
the first colon, lower-case both sides, opportunistically coerce the value
to a number; fragments with no colon are skipped. -/
def parse_style (style : Option String) : List (String × StyleVal) :=
  match style with
  | none => []
  | some s =>
    if s = "" then []
    else
      (strSplitOn s ";").foldl (fun out kv =>
        if strContains kv ':' then
          let k := strLower (strTrim (String.mk (kv.data.takeWhile (fun c => c ≠ ':'))))
          let v := strLower (strTrim (String.mk ((kv.data.dropWhile (fun c => c ≠ ':')).drop 1)))
          match pyFloat v with
          | some q => assocSet out k (.num q)
          | none => assocSet out k (.str v)
        else out) []

def tsfmClass (c : Char) : Bool := c.isDigit || c = '-' || c = '.'

/-- The anchored regex of parse_transform. The character classes contain
neither comma, whitespace nor the closing parenthesis, so greedy matching
is the maximal run followed by the required literal; trailing input after
the match is ignored (re.match only anchors the start). -/
def matchTranslate (s : String) : Option (String × String) :=
  if "translate(".data.isPrefixOf s.data then
    let cs := s.data.drop 10
    let g1 := cs.takeWhile tsfmClass
    let r1 := cs.dropWhile tsfmClass
    if g1.isEmpty then none
    else
      match r1 with
      | ',' :: r2 =>
        let r3 := r2.dropWhile Char.isWhitespace
        let g2 := r3.takeWhile tsfmClass
        let r4 := r3.dropWhile tsfmClass
        if g2.isEmpty then none
        else
          match r4.dropWhile Char.isWhitespace with
          | ')' :: _ => some (String.mk g1, String.mk g2)
          | _ => none
      | _ => none
  else none

/-- parse_transform of the source: a falsy argument or a failed match
yields (0, 0); a successful match converts both groups with float(),
whose failure propagates. -/
def parse_transform (transform : Option String) : Except PyErr (ℚ × ℚ) :=
  match transform with
  | none => .ok (0, 0)
  | some s =>
    if s = "" then .ok (0, 0)
    else
      match matchTranslate s with
      | none => .ok (0, 0)
      | some (g1, g2) => do
        let x ← pyFloatE g1
        let y ← pyFloatE g2
        pure (x, y)

/-- size_attr_to_float of the source: falsy input gives 0, the pixel
suffix is removed (every occurrence of "px"), a failed float parse is
logged and gives 0. -/
def size_attr_to_float (attr : Option String) : ℚ :=
  match attr with
  | none => 0
  | some s =>
    if s = "" then 0
    else
      match pyFloat (strReplace s "px" "") with
      | some q => q
      | none => 0

/-- The inline transform parse used by from_svg_node and from_svg_polygon:
float(t.split("translate(")[1].split(",")[0]) for x and
float(t.split("translate(")[1].split(",")[1][:-1]) for y; IndexError and
ValueError propagate to the caller. -/
def splitTsfm (s : String) : Except PyErr (ℚ × ℚ) :=
  match strSplitOn s "translate(" with
  | _ :: p1 :: _ =>
    (match strSplitOn p1 "," with
     | a :: rest => do
       let x ← pyFloatE a
       match rest with
       | b :: _ => do
         let y ← pyFloatE (b.dropRight 1)
         pure (x, y)
       | [] => .error PyErr.indexError
     | [] => .error PyErr.indexError)
  | _ => .error PyErr.indexError

/-- The node transform parse of from_svg_node: splitTsfm with every
failure (KeyError for a missing attribute included) caught and replaced
by (0, 0). -/
def parseNodeTransform (o : Option String) : ℚ × ℚ :=
  match o with
  | none => (0, 0)
  | some s =>
    match splitTsfm s with
    | .ok p => p
    | .error _ => (0, 0)

def matchTranslateAt (cs : List Char) : Option (String × String) :=
  if "translate(".data.isPrefixOf cs then
    let cs1 := cs.drop 10
    let g1 := cs1.takeWhile tsfmClass
    let r1 := cs1.dropWhile tsfmClass
    if g1.isEmpty then none
    else
      match r1 with
      | ',' :: r2 =>
        let r3 := r2.dropWhile Char.isWhitespace
        let g2 := r3.takeWhile tsfmClass
        if g2.isEmpty then none else some (String.mk g1, String.mk g2)
      | _ => none
  else none

/-- re.search of the unclosed translate pattern used for link anchors:
try a match at every position, left to right. -/
def searchTranslate : List Char → Option (String × String)
  | [] => none
  | c :: rest =>
    match matchTranslateAt (c :: rest) with
    | some r => some r
    | none => searchTranslate rest

/-! ### The path-data parser (from_svg_path) -/

def PREFER_DASHED_TO_DOTTED : Bool := true

def pathFlags : List Char :=
  ['M', 'm', 'L', 'l', 'H', 'h', 'V', 'v', 'C', 'c', 'S', 's',
   'Q', 'q', 'T', 't', 'A', 'a', 'Z', 'z']

/-- d.replace(",", " ").split(): commas become spaces, split on
whitespace runs dropping empty tokens. -/
def tokenizePath (s : String) : List String :=
  (strSplitPred (strReplace s "," " ") Char.isWhitespace).filter (fun t => t ≠ "")

def nnChar (c : Char) : Bool := c = 'N' || c = 'n'

/-- x.strip("Nn"): remove leading and trailing N/n characters. -/
def stripNn (s : String) : String :=
  String.mk (((s.data.dropWhile nnChar).reverse.dropWhile nnChar).reverse)

/-- float(x.strip("Nn") or 0): an empty remainder gives 0, otherwise a
float parse whose failure raises ValueError. -/
def parseTok (x : String) : Except PyErr ℚ :=
  let s := stripNn x
  if s = "" then .ok 0 else pyFloatE s

/-- Split a string at the first occurrence of c, dropping c. -/
def splitOnceChar (c : Char) (s : String) : String × String :=
  (String.mk (s.data.takeWhile (fun a => a ≠ c)),
   String.mk ((s.data.dropWhile (fun a => a ≠ c)).drop 1))

/-- The implicit-command step at the end of pop_elts:
if d and d[0][0] not in flags: d[0] = letter + d[0][0].
Note that this keeps only the FIRST character of the rewritten token (a
slip in the source; the remaining characters are dropped).  Tokens are
never empty at this point; the empty case is the identity. -/
def pyReinject (letter : Char) (d : List String) : List String :=
  match d with
  | [] => []
  | t :: rest =>
    match t.data with
    | [] => t :: rest
    | c :: _ => if c ∈ pathFlags then t :: rest else String.mk [letter, c] :: rest

/-- pop_elts(n) of the source: take n tokens (IndexError when fewer are
left); the first token carries the command letter (asserted to be in the
flag alphabet) and is either a bare letter, in which case one further
token is taken, or letter-prefixed; a flag letter glued into the last
token is split off and pushed back; the implicit-command rewrite is
applied to the remainder; finally all kept tokens are converted to
numbers. -/
def popElts (n : Nat) (d : List String) : Except PyErr (List ℚ × List String) :=
  if d.length < n then .error .indexError
  else
    match d.take n with
    | [] => .error .indexError
    | e0 :: etail =>
      let rest := d.drop n
      match e0.data with
      | [] => .error .indexError
      | letter :: lrest =>
        if letter ∉ pathFlags then .error (.assertionError (String.mk [letter]))
        else do
          let (elts2, rest2) ←
            if lrest.isEmpty then
              match rest with
              | [] => .error PyErr.indexError
              | r0 :: rtail => .ok (etail ++ [r0], rtail)
            else
              .ok ((String.mk lrest :: etail : List String), rest)
          match elts2.getLast? with
          | none => .error PyErr.indexError
          | some lastTok =>
            let (elts3, rest3) :=
              match pathFlags.find? (fun c => strContains lastTok c) with
              | some c =>
                let (before, after) := splitOnceChar c lastTok
                (elts2.dropLast ++ [before], (String.mk [c] ++ after) :: rest2)
              | none => (elts2, rest2)
            let rest4 := pyReinject letter rest3
            let vals ← elts3.mapM parseTok
            pure (vals, rest4)

/-- _bezier_curve_point of the source by structural recursion on a fuel
that starts at the list length (each step shortens the list by one, so
exhaustion is unreachable): repeated linear interpolation with every
intermediate result rounded to 5 decimals.  The empty list is unreachable
(always called on the three curve points or a sublist). -/
def bcpF : Nat → List (ℚ × ℚ) → ℚ → Bool → ℚ
  | 0, _, _, _ => 0
  | _, [], _, _ => 0
  | _ + 1, [p], _, second => if second then p.2 else p.1
  | fuel + 1, p :: q :: rest, t, second =>
    pyRound5 (bcpF fuel ((p :: q :: rest).dropLast) t second * (1 - t) +
              bcpF fuel (q :: rest) t second * t)

def bcp (pl : List (ℚ × ℚ)) (t : ℚ) (second : Bool) : ℚ :=
  bcpF pl.length pl t second

/-- bezier_curve_recursive of the source with the fixed speed 0.1.  The
source samples t = k*0.1 for k in range(int((1 + 0.1*2) // 0.1)); under
IEEE doubles 1.2 // 0.1 evaluates to 11.0, so k runs over 0..10 and the
samples are t = 0.0 ... 1.0.  With every interpolation rounded to five
decimals the float samples agree with the exact rationals k/10 used here. -/
def bezier_curve_recursive (defPoints : List (ℚ × ℚ)) : List (ℚ × ℚ) :=
  (List.range 11).map
    (fun k => (bcp defPoints ((k : ℚ) / 10) false, bcp defPoints ((k : ℚ) / 10) true))

/-- The C branch of from_svg_path: the three anchor-relative points are
flattened when neither all x nor all y coordinates coincide
(len(set) > 1 on both axes); otherwise the three raw points themselves
are appended. -/
def curveC (ax ay x1 y1 x2 y2 nx ny : ℚ) : List (ℚ × ℚ) :=
  let p1 := (x1 - ax, y1 - ay)
  let p2 := (x2 - ax, y2 - ay)
  let p3 := (nx - ax, ny - ay)
  if (¬(p1.1 = p2.1 ∧ p2.1 = p3.1)) ∧ (¬(p1.2 = p2.2 ∧ p2.2 = p3.2)) then
    bezier_curve_recursive [p1, p2, p3]
  else
    [p1, p2, p3]

/-- self.points.append / extend: points is initialized before the loop. -/
def appendPt (e : Element) (p : ℚ × ℚ) : Element :=
  { e with points := some ((e.points.getD []) ++ [p]) }

def extendPts (e : Element) (ps : List (ℚ × ℚ)) : Element :=
  { e with points := some ((e.points.getD []) ++ ps) }

structure PathSt where
  elem : Element
  curX : ℚ
  curY : ℚ
  d : List String
deriving DecidableEq, Repr

/-- The while loop of from_svg_path.  Every iteration consumes at least
one token from d, so fuel = initial length of d suffices; the fuel-zero
error is unreachable.  The L and M branches of the source are identical
and are merged here; branch order follows the source
(L, M, N/n, C, A/a, l, z/Z, otherwise an error naming the command). -/
def pathLoop : Nat → PathSt → Except PyErr PathSt
  | 0, st => if st.d.isEmpty then .ok st else .error (.exception "loop fuel exhausted")
  | fuel + 1, st =>
    match st.d with
    | [] => .ok st
    | tok :: dtail =>
      match tok.data with
      | [] => .error .indexError
      | c :: _ =>
        if c = 'L' ∨ c = 'M' then do
          let (vals, d2) ← popElts 2 st.d
          match vals with
          | [nx, ny] =>
            pathLoop fuel { elem := appendPt st.elem (nx - st.elem.x, ny - st.elem.y),
                            curX := nx, curY := ny, d := d2 }
          | _ => .error PyErr.indexError
        else if c = 'N' ∨ c = 'n' then
          -- stray N tokens observed in requirement diagrams are dropped
          pathLoop fuel { st with d := dtail }
        else if c = 'C' then do
          let (vals, d2) ← popElts 6 st.d
          match vals with
          | [x1, y1, x2, y2, nx, ny] =>
            pathLoop fuel { elem := extendPts st.elem (curveC st.elem.x st.elem.y x1 y1 x2 y2 nx ny),
                            curX := nx, curY := ny, d := d2 }
          | _ => .error PyErr.indexError
        else if c = 'A' ∨ c = 'a' then
          -- the source catches IndexError from the seven-value pop and breaks
          match popElts 7 st.d with
          | .error .indexError => .ok st
          | .error e => .error e
          | .ok (vals, d2) =>
            match vals with
            | [_rx, _ry, _angle, _laf, _sf, dx, dy] =>
              let nx := if c = 'A' then dx else st.curX + dx
              let ny := if c = 'A' then dy else st.curY + dy
              pathLoop fuel { elem := appendPt st.elem (nx - st.elem.x, ny - st.elem.y),
                              curX := nx, curY := ny, d := d2 }
            | _ => .error PyErr.indexError
        else if c = 'l' then do
          let (vals, d2) ← popElts 2 st.d
          match vals with
          | [dx, dy] =>
            let nx := st.curX + dx
            let ny := st.curY + dy
            pathLoop fuel { elem := appendPt st.elem (nx - st.elem.x, ny - st.elem.y),
                            curX := nx, curY := ny, d := d2 }
          | _ => .error PyErr.indexError
        else if c = 'z' ∨ c = 'Z' then
          .ok { st with elem := appendPt st.elem (0, 0) }
        else
          .error (.exception ("Unknown path command: " ++ tok))

def ptsMaxX : List (ℚ × ℚ) → ℚ
  | [] => 0
  | p :: t => t.foldl (fun a q => max a q.1) p.1

def ptsMinX : List (ℚ × ℚ) → ℚ
  | [] => 0
  | p :: t => t.foldl (fun a q => min a q.1) p.1

def ptsMaxY : List (ℚ × ℚ) → ℚ
  | [] => 0
  | p :: t => t.foldl (fun a q => max a q.2) p.2

def ptsMinY : List (ℚ × ℚ) → ℚ
  | [] => 0
  | p :: t => t.foldl (fun a q => min a q.2) p.2

/-- The style handling at the top of from_svg_path: a stroke-width key
makes the stroke sharpness round; only a string-typed value (one the
style parser failed to coerce to a number) is converted with
size_attr_to_float and assigned, and only when it exceeds 2. -/
def pathStyleApply (e : Element) (sty : List (String × StyleVal)) : Element :=
  let e1 :=
    match styleGet sty "stroke-width" with
    | none => e
    | some v =>
      let e' := { e with stroke_sharpness := StrokeSharpness.round }
      match v with
      | .num _ => e'
      | .str s =>
        let sw := size_attr_to_float (some s)
        if 2 < sw then { e' with stroke_width := sw } else e'
  if (styleGet sty "stroke-dasharray").isSome then
    { e1 with stroke_style := if PREFER_DASHED_TO_DOTTED then .dashed else .dotted }
  else e1

/-- Element.from_svg_path of the source. -/
def pathInit (e2 : Element) (ax ay : ℚ) (d1 : List String) : PathSt :=
  { elem := { e2 with x := ax, y := ay, points := some [(0, 0)] },
    curX := ax, curY := ay, d := d1 }

def from_svg_path (path : SvgNode) : M (List Element) := do
  let e0 ← Element.mkDefault .line
  let dAttr ← M.lift (path.reqAttr "d")
  let d := tokenizePath dAttr
  let e2 := pathStyleApply e0 (parse_style (path.attr? "style"))
  let (v0, d1) ← M.lift (popElts 2 d)
  match v0 with
  | [ax, ay] => do
    let st0 := pathInit e2 ax ay d1
    let stF ← M.lift (pathLoop d1.length st0)
    let eL := stF.elem
    let pts := eL.points.getD []
    let e3 := { eL with width := ptsMaxX pts - ptsMinX pts,
                        height := ptsMaxY pts - ptsMinY pts }
    let e4 :=
      match path.attr? "marker-start" with
      | some s => if s = "" then e3 else { e3 with start_arrowhead := some .triangle, type := .arrow }
      | none => e3
    let e5 :=
      match path.attr? "marker-end" with
      | some s => if s = "" then e4 else { e4 with end_arrowhead := some .triangle, type := .arrow }
      | none => e4
    let e6 := if e5.type = TypeEnum.line then { e5 with stroke_sharpness := .round } else e5
    pure [e6]
  | _ => M.lift (.error PyErr.indexError)

/-! ### Shape constructors (from_svg_line, rectangle, polygon, circle, text) -/

/-- float(tag[k]): required attribute then float conversion. -/
def reqFloat (n : SvgNode) (k : String) : Except PyErr ℚ :=
  (n.reqAttr k).bind pyFloatE

/-- Indexing [0] into the singleton lists the shape constructors return. -/
def headE (es : List Element) : M Element :=
  match es with
  | e :: _ => pure e
  | [] => M.lift (.error .indexError)

def from_svg_line (line : SvgNode) : M (List Element) := do
  let e ← Element.mkDefault .line
  let x1 ← M.lift (reqFloat line "x1")
  let y1 ← M.lift (reqFloat line "y1")
  let x2 ← M.lift (reqFloat line "x2")
  let y2 ← M.lift (reqFloat line "y2")
  pure [{ e with
          x := x1
          y := y1
          width := abs (x2 - x1)
          height := abs (y2 - y1)
          points := some [(0, 0), (x2 - x1, y2 - y1)] }]

/-- The attribute reads of from_svg_rectangle, in source order (rx and
ry floats, required height and width, then the optional literal x and y
when include_xy is set and the attribute differs from the string "0"). -/
structure RectData where
  rx : ℚ
  ry : ℚ
  h : ℚ
  w : ℚ
  xv : Option ℚ
  yv : Option ℚ
deriving DecidableEq, Repr

def rectReads (rectangle : SvgNode) (include_xy : Bool) : Except PyErr RectData := do
  -- rectangle.get("rx") or "0": absent or empty becomes "0"
  let rxs := match rectangle.attr? "rx" with
    | some s => if s = "" then "0" else s
    | none => "0"
  let rys := match rectangle.attr? "ry" with
    | some s => if s = "" then "0" else s
    | none => "0"
  let rx ← pyFloatE rxs
  let ry ← pyFloatE rys
  let hs ← rectangle.reqAttr "height"
  let ws ← rectangle.reqAttr "width"
  let xv ←
    if include_xy then
      match rectangle.attr? "x" with
      | some s => if s = "0" then pure none else (pyFloatE s).map some
      | none => pure none
    else pure none
  let yv ←
    if include_xy then
      match rectangle.attr? "y" with
      | some s => if s = "0" then pure none else (pyFloatE s).map some
      | none => pure none
    else pure none
  pure { rx := rx, ry := ry, h := size_attr_to_float (some hs),
         w := size_attr_to_float (some ws), xv := xv, yv := yv }

/-- The pure construction of from_svg_rectangle from its reads. -/
def rectBuild (e : Element) (d : RectData) : Element :=
  let e1 :=
    if d.rx = 0 ∧ d.ry = 0 then e
    else
      let e' := { e with stroke_sharpness := StrokeSharpness.round }
      -- rounded corners beyond the size threshold are reclassified as an ellipse
      if (d.rx - d.ry) < 1 ∧ (15 < d.rx ∨ 15 < d.ry) then { e' with type := TypeEnum.ellipse } else e'
  let e2 := { e1 with height := d.h, width := d.w }
  let e3 := match d.xv with
    | some xv => { e2 with x := xv }
    | none => e2
  match d.yv with
  | some yv => { e3 with y := yv }
  | none => e3

def from_svg_rectangle (rectangle : SvgNode) (include_xy : Bool) : M (List Element) := do
  let e ← Element.mkDefault .rectangle
  let d ← M.lift (rectReads rectangle include_xy)
  pure [rectBuild e d]

def parsePolyPair (p : String) : Except PyErr (ℚ × ℚ) :=
  match strSplitOn p "," with
  | [a, b] => do
    let x ← pyFloatE a
    let y ← pyFloatE b
    pure (x, y)
  | _ => .error (.valueError "unpacking a points pair needs exactly two values")

/-- The reads of from_svg_polygon: the required transform parsed by the
split pattern and the points attribute pairs. -/
def polyReads (polygon : SvgNode) : Except PyErr ((ℚ × ℚ) × List (ℚ × ℚ)) := do
  let t ← polygon.reqAttr "transform"
  let xy ← splitTsfm t
  let ptsAttr ← polygon.reqAttr "points"
  let pts ← (strSplitOn ptsAttr " ").mapM parsePolyPair
  pure (xy, pts)

def polyBuild (e : Element) (d : (ℚ × ℚ) × List (ℚ × ℚ)) : Element :=
  let w := ptsMaxX d.2 - ptsMinX d.2
  let h := ptsMaxY d.2 - ptsMinY d.2
  { e with x := d.1.1 + w/2, y := d.1.2 - h, width := w, height := h }

def from_svg_polygon (polygon : SvgNode) : M (List Element) := do
  let e ← Element.mkDefault .diamond
  let d ← M.lift (polyReads polygon)
  pure [polyBuild e d]

def circleReads (circle : SvgNode) : Except PyErr (ℚ × ℚ × ℚ) := do
  let x0 ← pyFloatE ((circle.attr? "x").getD "0")
  let y0 ← pyFloatE ((circle.attr? "y").getD "0")
  let r ← reqFloat circle "r"
  pure (x0, y0, r)

def circleBuild (e : Element) (d : ℚ × ℚ × ℚ) : Element :=
  { e with x := d.1, y := d.2.1, width := 2 * d.2.2, height := 2 * d.2.2 }

def from_svg_circle (circle : SvgNode) : M (List Element) := do
  let e ← Element.mkDefault .ellipse
  let d ← M.lift (circleReads circle)
  pure [circleBuild e d]

def from_svg_text (text : SvgNode) : M (List Element) := do
  let e ← Element.mkDefault .text
  let x0 := size_attr_to_float (text.attr? "x")
  let y0 := size_attr_to_float (text.attr? "y")
  let s := text.innerText
  let ta :=
    if text.attr? "text-anchor" = some "middle" then TextAlign.center
    else if text.attr? "text-anchor" = some "end" then TextAlign.right
    else TextAlign.left
  let va :=
    if text.attr? "dominant-baseline" = some "middle" then VerticalAlign.middle
    else if text.attr? "dominant-baseline" = some "hanging" then VerticalAlign.top
    else if text.attr? "dominant-baseline" = some "text-after-edge" then VerticalAlign.bottom
    else VerticalAlign.middle
  -- text.get("id", random_id()): the default id is drawn even when unused
  let r ← random_id
  pure [{ e with
          x := x0
          y := y0
          text := some s
          height := 16
          font_size := some 16
          width := (s.length : ℚ) * 16
          font_family := some 2
          text_align := some ta
          vertical_align := some va
          baseline := some 16
          id := (text.attr? "id").getD r }]

/-! ### Node reconstruction stages -/

/-- One foreignobject of a node: skipped when its text is empty,
otherwise a centered text element (an explicit truthy sub-transform
positions it instead). -/
def foText (tx ty : ℚ) (fo : SvgNode) : M (Option Element) := do
  if fo.innerText = "" then pure none
  else do
    let t ← Element.mkDefault .text
    let w ← M.lift (reqFloat fo "width")
    let h ← M.lift (reqFloat fo "height")
    let (px, py) ←
      match fo.attr? "transform" with
      | some s =>
        if s = "" then pure (tx - w/2, ty)
        else do
          let (dx, dy) ← M.lift (splitTsfm s)
          pure (tx + dx, ty + dy)
      | none => pure (tx - w/2, ty)
    pure (some { t with
                 x := px
                 y := py - h/2
                 width := w
                 height := h
                 text := some fo.innerText
                 original_text := some fo.innerText
                 font_size := some 16
                 font_family := some 2
                 text_align := some .center
                 vertical_align := some .middle
                 baseline := some (h - (h - 16)/2)
                 id := (fo.attr? "id").getD t.id })

def foTexts (tx ty : ℚ) : List SvgNode → M (List Element)
  | [] => pure []
  | fo :: rest => do
    let o ← foText tx ty fo
    let more ← foTexts tx ty rest
    pure (match o with | some e => e :: more | none => more)

/-- The divider-line loop: each line binds every text collected so far
and rewrites their container ids to its own. -/
def lineFold (tx ty : ℚ) (txts lns : List Element) :
    List SvgNode → M (List Element × List Element)
  | [] => pure (txts, lns)
  | lt :: rest => do
    let ls ← from_svg_line lt
    let l0 ← headE ls
    let l1 := if lt.classTokens.contains "req-title-line"
              then { l0 with x := l0.x - l0.width/2, y := l0.y - l0.width/2 } else l0
    let l2 := { l1 with
                y := l1.y + ty
                x := l1.x + tx
                bound_elements := some (txts.map (fun t => BoundElement.mk t.id t.type)) }
    lineFold tx ty (txts.map (fun t => { t with container_id := some l2.id })) (lns ++ [l2]) rest

def joinerBound (lns txts : List Element) (inclFo : Bool) : List BoundElement :=
  (lns ++ if inclFo then txts else []).map (fun t => BoundElement.mk t.id t.type)

def updCont (idv : String) (es : List Element) : List Element :=
  es.map (fun t => { t with container_id := some idv })

/-- Binding a container shape: record the joiner elements in its
boundElements and point their containerId back at the shape. -/
def bindShape (shape : Element) (lns txts : List Element) (inclFo : Bool) :
    Element × List Element × List Element :=
  ({ shape with bound_elements := some (joinerBound lns txts inclFo) },
   updCont shape.id lns,
   if inclFo then updCont shape.id txts else txts)

/-- The renderer-artifact allow-list (all IGNORE_ constants of the source
are set to true). -/
def tspanFiltered (s : String) : Bool :=
  s = "Id: undefined" || s = "Text: undefined" || s = "Risk: undefined" ||
  s = "Verification: undefined" || s = "Type: Not Specified" || s = "Doc Ref: None"

/-- One text tag with tspans: cumulative dx/dy chaining, the allow-list
filter skipping both element creation and accumulation, id text_id-i from
the enumeration index. -/
def tspanFold (txtX txtY tx ty rectW rectH : ℚ) (textId : String)
    (totalDx totalDy : ℚ) : List (Nat × SvgNode) → M (List Element)
  | [] => pure []
  | (i, ts) :: rest =>
    if tspanFiltered ts.innerText then
      tspanFold txtX txtY tx ty rectW rectH textId totalDx totalDy rest
    else do
      let t0 ← Element.mkDefault .text
      let tspanX := size_attr_to_float (ts.attr? "x")
      let tspanY := size_attr_to_float (ts.attr? "y")
      let totalDy2 := totalDy + size_attr_to_float (ts.attr? "dy")
      let totalDx2 := totalDx + size_attr_to_float (ts.attr? "dx")
      let x0 := txtX + tspanX + totalDx2 + tx
      let y0 := txtY + tspanY + totalDy2 + ty
      let ta := if ts.attr? "text-anchor" = some "middle" then TextAlign.center else TextAlign.left
      -- baseline is computed while the height is still the default 0, so it is 0 - (0 - 16)/2 = 8
      let w := if rectW = 0 then (ts.innerText.length : ℚ) * 16 else rectW
      let x1 := if rectW = 0 then x0 else x0 - rectW/2
      let y1 := if rectH = 0 then y0 else y0 - rectH/2
      let x2 := if ta = TextAlign.center then x1 - w else x1
      let elt := { t0 with
                   x := x2
                   y := y1
                   text := some ts.innerText
                   original_text := some ts.innerText
                   font_size := some 16
                   font_family := some 2
                   text_align := some ta
                   vertical_align := some .middle
                   baseline := some 8
                   id := textId ++ "-" ++ toString i
                   group_ids := [textId]
                   height := 16
                   width := w }
      let more ← tspanFold txtX txtY tx ty rectW rectH textId totalDx2 totalDy2 rest
      pure (elt :: more)

/-- One text tag of a node: tspans each become their own element; a text
tag without tspans builds an element that the source then never appends
(the id supply is still consumed). -/
def textStep (tx ty rectW rectH : ℚ) (textTag : SvgNode) : M (List Element) := do
  let txtX := size_attr_to_float (textTag.attr? "x")
  let txtY := size_attr_to_float (textTag.attr? "y")
  let r ← random_id
  let textId := (textTag.attr? "id").getD r
  let tspans := textTag.findAll (isNamed "tspan")
  if tspans.isEmpty then do
    let _ ← from_svg_text textTag
    pure []
  else
    tspanFold txtX txtY tx ty rectW rectH textId 0 0 tspans.enum

def textElems (tx ty rectW rectH : ℚ) : List SvgNode → M (List Element)
  | [] => pure []
  | t :: rest => do
    let es ← textStep tx ty rectW rectH t
    let more ← textElems tx ty rectW rectH rest
    pure (es ++ more)

/-- The re.search based transform of a link anchor in the nodes group. -/
def aTsfm (a : SvgNode) : Except PyErr (ℚ × ℚ) :=
  match a.attr? "transform" with
  | none => .ok (0, 0)
  | some t =>
    if t = "" then .ok (0, 0)
    else
      match searchTranslate t.data with
      | none => .ok (0, 0)
      | some (g1, g2) => do
        let x ← pyFloatE g1
        let y ← pyFloatE g2
        pure (x, y)

/-- Element.from_svg_edge_path of the source: no inner path means no
elements for this unit; otherwise the path elements take the group id
and an opacity from the group style. -/
def from_svg_edge_path (edge_path : SvgNode) : M (List Element) := do
  match edge_path.find? (isNamed "path") with
  | none => pure []
  | some p => do
    let selves ← from_svg_path p
    let idv ← M.lift (edge_path.reqAttr "id")
    let sty := parse_style (edge_path.attr? "style")
    let opac ←
      match styleGet sty "opacity" with
      | some (.num q) =>
        if q = 0 then pure none else pure (some (pyTrunc (q * 100)))
      | some (.str s) =>
        -- a truthy string value is multiplied by 100 (string repetition)
        -- and handed to int(), which raises for the strings that reach here
        if s = "" then pure none else M.lift (.error (.valueError "invalid literal for int"))
      | none => pure none
    pure (selves.map (fun e => { e with id := idv, opacity := opac.getD e.opacity }))

/-- The call forms of the mutually recursive reconstruction walk.  The
source functions from_svg_node, from_svg_edge_label and from_svg_tree
recurse into each other (nested subgraphs re-enter the whole-tree walk);
the embedding runs them through one engine that is structurally recursive
on a fuel bound, spending one unit per hop so that results compute. -/
inductive ECall where
  | node (n : SvgNode)
  | nodes (ns : List SvgNode)
  | edgeLabel (n : SvgNode)
  | edgeLabels (ns : List SvgNode)
  | anchors (ns : List SvgNode)
  | clusters (ns : List SvgNode)
  | tree (t : SvgNode) (tx ty : ℚ) (tid : Option String)

/-- The rect binding stage of from_svg_node: center the rectangle on the
node anchor, absorb the joiner texts into its boundElements and point
their containerId back at it. -/
def rectStage (rt? : Option SvgNode) (tx ty : ℚ) (txts1 lns1 : List Element)
    (inclFo : Bool) :
    M (Option Element × List Element × List Element × ℚ × ℚ) :=
  match rt? with
  | none => pure (none, txts1, lns1, (0 : ℚ), (0 : ℚ))
  | some rt => do
    let rs ← from_svg_rectangle rt false
    let r0 ← headE rs
    let r1 := { r0 with x := r0.x + tx - r0.width/2, y := r0.y + ty - r0.height/2 }
    let (r2, lns2, txts2) := bindShape r1 lns1 txts1 inclFo
    pure (some r2, txts2, lns2, r2.width, r2.height)

/-- The polygon binding stage of from_svg_node. -/
def polyStage (pg? : Option SvgNode) (tx ty : ℚ) (txts2 lns2 : List Element)
    (inclFo : Bool) : M (Option Element × List Element × List Element) :=
  match pg? with
  | none => pure (none, txts2, lns2)
  | some pg => do
    let ps ← from_svg_polygon pg
    let p0 ← headE ps
    let p1 := { p0 with x := p0.x + tx - p0.width/2, y := p0.y + ty }
    let (p2, lns3, txts3) := bindShape p1 lns2 txts2 inclFo
    pure (some p2, txts3, lns3)

/-- The circle binding stage of from_svg_node. -/
def circStage (cc? : Option SvgNode) (tx ty : ℚ) (txts3 lns3 : List Element)
    (inclFo : Bool) : M (Option Element × List Element × List Element) :=
  match cc? with
  | none => pure (none, txts3, lns3)
  | some cc => do
    let cs ← from_svg_circle cc
    let c0 ← headE cs
    let c1 := { c0 with x := c0.x + tx, y := c0.y + ty - c0.height/4 }
    let (c2, lns4, txts4) := bindShape c1 lns3 txts3 inclFo
    pure (some c2, txts4, lns4)

/-- The path binding stage of from_svg_node. -/
def pathStage (pt? : Option SvgNode) (tx ty : ℚ) (txts4 lns4 : List Element)
    (inclFo : Bool) : M (Option Element × List Element × List Element) :=
  match pt? with
  | none => pure (none, txts4, lns4)
  | some pt => do
    let ps ← from_svg_path pt
    let p0 ← headE ps
    let p1 := { p0 with x := p0.x + tx - p0.width/2, y := p0.y + ty - p0.height/2 }
    let (p2, lns5, txts5) := bindShape p1 lns4 txts4 inclFo
    pure (some p2, txts5, lns5)

/-- The non-root body of Element.from_svg_node: joiner texts and lines,
then the four container-shape binding stages in source order, a fresh
group id stamped on every produced element. -/
def nodeNonRoot (node : SvgNode) (tx ty : ℚ) : M (List Element) := do
  let txts0 ← foTexts tx ty (node.findAll (isNamed "foreignobject"))
  let (txts1, lns1) ← lineFold tx ty txts0 [] (node.findAll (isNamed "line"))
  let inclFo : Bool := decide (txts1.length = 1)
  let (rectO, txts2, lns2, rectW, rectH) ←
    rectStage (node.find? (isNamed "rect")) tx ty txts1 lns1 inclFo
  let tspanTxts ← textElems tx ty rectW rectH (node.findAll (isNamed "text"))
  let (polyO, txts3, lns3) ←
    polyStage (node.find? (isNamed "polygon")) tx ty txts2 lns2 inclFo
  let (circO, txts4, lns4) ←
    circStage (node.find? (isNamed "circle")) tx ty txts3 lns3 inclFo
  let (pathO, txts5, lns5) ←
    pathStage (node.find? (isNamed "path")) tx ty txts4 lns4 inclFo
  let g ← random_id
  let objs := txts5 ++ lns5 ++ rectO.toList ++ tspanTxts ++
              polyO.toList ++ circO.toList ++ pathO.toList
  pure (objs.map (fun o => { o with group_ids := [g] }))

/-- The flat best-effort fallback scan of Element.from_svg_tree: direct
path, rect and text children of the svg root, reconstructed independently
(f1 is the already-walked direct g children). The source appends the whole
accumulated rect list after each rect, duplicating earlier rects; aliases
show the final values. -/
def fallbackScan (svg : SvgNode) (f1 : List Element) : M (List Element) := do
  let f2 ← (svg.findDirect (isNamed "path")).foldlM (fun acc p => do
    let es ← from_svg_path p
    let es2 := if p.classTokens.contains "relationshipLine"
               then es.map (fun e => { e with x := e.x - 100, y := e.y - 100 }) else es
    pure (acc ++ es2)) f1
  let rects ← (svg.findDirect (isNamed "rect")).foldlM (fun acc r => do
    let es ← from_svg_rectangle r true
    pure (acc ++ es)) []
  let rt ← (svg.findDirect (isNamed "text")).enum.foldlM (fun acc it => do
    let tes ← from_svg_text it.2
    match it.2.classTokens.contains "relationshipLabel", acc.1.get? it.1 with
    | true, some ri0 =>
      let ri := { ri0 with x := ri0.x - 100, y := ri0.y - 100 }
      let rcur2 := acc.1.set it.1 ri
      let w0 := match rcur2 with | r0 :: _ => r0.width | [] => 0
      let tes2 := tes.map (fun e => { e with x := ri.x, width := w0, y := ri.y })
      pure (rcur2, acc.2 ++ tes2)
    | _, _ => pure (acc.1, acc.2 ++ tes)) ((rects, []) : List Element × List Element)
  let dupRects := (List.range rt.1.length).foldl (fun acc k => acc ++ rt.1.take (k+1)) []
  pure (f2 ++ dupRects ++ rt.2)

/-- The per-element finish of Element.from_svg_tree: accumulated translate
and, for a non-empty tree id, the tree group tag. -/
def treeStamp (tx ty : ℚ) (tid : String) (es : List Element) : List Element :=
  es.map (fun e =>
    let e1 := { e with x := e.x + tx, y := e.y + ty }
    if tid = "" then e1
    else
      if e1.group_ids.isEmpty then { e1 with group_ids := [tid] }
      else { e1 with group_ids := e1.group_ids ++ [tid] })

def engine : Nat → ECall → M (List Element)
  | 0, _ => M.lift (.error (.exception "recursion fuel exhausted"))
  | fuel + 1, c =>
    match c with
    | .node node =>
      -- Element.from_svg_node of the source
      let (tx, ty) := parseNodeTransform (node.attr? "transform")
      -- node.get("class") and "root" in node["class"]: the token list contains root
      if node.hasClass "root" then do
        let tid ← random_id
        engine fuel (.tree node tx ty (some tid))
      else nodeNonRoot node tx ty
    | .nodes [] => pure []
    | .nodes (n :: rest) => do
      let es ← engine fuel (.node n)
      let more ← engine fuel (.nodes rest)
      pure (es ++ more)
    | .edgeLabel edge_label =>
      -- Element.from_svg_edge_label of the source: a missing inner span hits
      -- an attribute access on None; text elements get 0.8 of their font
      -- size, other elements a neutral fill
      (match edge_label.find? (isNamed "span") with
      | none => M.lift (.error (.attributeError "NoneType object has no attribute get"))
      | some _ => do
        -- a span id, when present, is stored on an instance attribute that
        -- nothing ever reads; no observable effect
        let nodes ← engine fuel (.node edge_label)
        nodes.mapM (fun n =>
          if n.type = TypeEnum.text then
            match n.font_size with
            | some v => pure { n with font_size := some (v * 4/5) }
            | none => M.lift (.error (.typeError "unsupported operand type for NoneType"))
          else pure { n with background_color := "#e0e0e0" }))
    | .edgeLabels [] => pure []
    | .edgeLabels (el :: rest) => do
      let es ← engine fuel (.edgeLabel el)
      let more ← engine fuel (.edgeLabels rest)
      pure (es ++ more)
    | .anchors [] => pure []
    | .anchors (aTag :: rest) => do
      let at2 ← M.lift (aTsfm aTag)
      let le1 ← engine fuel (.nodes (aTag.findDirect (isGWithClass "node")))
      let le2 ← engine fuel (.nodes (aTag.findDirect (isGWithClass "root")))
      let le3 := (le1 ++ le2).map (fun e =>
        { e with link := aTag.attr? "xlink:href", x := e.x + at2.1, y := e.y + at2.2 })
      let more ← engine fuel (.anchors rest)
      pure (le3 ++ more)
    | .clusters [] => pure []
    | .clusters (cluster :: rest) => do
      -- cluster.find('rect') / cluster.find('g'): a missing child is handed to
      -- the constructor and hits an attribute access on None
      let rectElts ←
        match cluster.find? (isNamed "rect") with
        | none => M.lift (.error (.attributeError "NoneType object has no attribute get"))
        | some rt => from_svg_rectangle rt true
      let gRes := cluster.find? (isNamed "g")
      let gElts ←
        match gRes with
        | none => M.lift (.error (.attributeError "NoneType object has no attribute get"))
        | some gg => engine fuel (.node gg)
      let r ← random_id
      let gid := match gRes with
        | some gg => (gg.attr? "id").getD r
        | none => r
      let ct ← M.lift (parse_transform (cluster.attr? "transform"))
      let upd := fun (e : Element) =>
        { e with
          group_ids := if e.group_ids.isEmpty then [gid] else e.group_ids ++ [gid]
          x := e.x + ct.1
          y := e.y + ct.2 }
      let gElts2 := (gElts.map upd)
      let rectElts2 := (rectElts.map upd)
      -- flowcharts (no cluster transform) get the half-width text offset fix
      let gElts3 := if ct.1 = 0 ∧ ct.2 = 0
                    then gElts2.map (fun e => { e with x := e.x + e.width/2 }) else gElts2
      let more ← engine fuel (.clusters rest)
      pure (rectElts2 ++ gElts3 ++ more)
    | .tree tree tx ty tid? => do
      -- Element.from_svg_tree of the source: edge paths, edge labels, nodes
      -- (with link anchors), clusters, then the flat fallback scan when
      -- nothing was produced; finally translate and tag every element
      let tid ← match tid? with
        | none => random_id
        | some t => pure t
      let e1 ←
        match tree.find? (isGWithClass "edgePaths") with
        | none => pure []
        | some edgePaths => do
          -- bare path children are wrapped into a synthetic edgePath group
          let l1 ← (edgePaths.findDirect (isNamed "path")).enum.foldlM (fun acc ip => do
            let styv ← M.lift (ip.2.reqAttr "style")
            let g : SvgNode := .tag "g" [("class", "edgePath"),
              ("id", "root-edgepath-" ++ toString ip.1), ("style", styv)] [ip.2]
            let es ← from_svg_edge_path g
            pure (acc ++ es)) []
          (edgePaths.findDirect (isGWithClass "edgePath")).foldlM (fun acc ep => do
            let es ← from_svg_edge_path ep
            pure (acc ++ es)) l1
      let e2 ←
        match tree.find? (isGWithClass "edgeLabels") with
        | none => pure e1
        | some edgeLabels => do
          let es ← engine fuel (.edgeLabels (edgeLabels.findDirect (isGWithClass "edgeLabel")))
          pure (e1 ++ es)
      let e3 ←
        match tree.find? (isGWithClass "nodes") with
        | none => pure e2
        | some nodesG => do
          let a1 ← engine fuel (.nodes (nodesG.findDirect (isGWithClass "node")))
          let a2 ← engine fuel (.nodes (nodesG.findDirect (isGWithClass "root")))
          let a3 ← engine fuel (.anchors (nodesG.findDirect (isNamed "a")))
          pure (e2 ++ a1 ++ a2 ++ a3)
      let e4 ←
        match tree.find? (isGWithClass "clusters") with
        | none => pure e3
        | some clusters => do
          let es ← engine fuel (.clusters (clusters.findDirect (isGWithClass "cluster")))
          pure (e3 ++ es)
      let e5 ←
        if e4.isEmpty then
          match tree.find? (isNamed "svg") with
          | none => pure e4
          | some svg => do
            let f1 ← engine fuel (.nodes (svg.findDirect (isNamed "g")))
            fallbackScan svg f1
        else pure e4
      pure (treeStamp tx ty tid e5)

/-- Element.from_svg_node of the source (see engine). -/
def from_svg_node (fuel : Nat) (node : SvgNode) : M (List Element) :=
  engine fuel (.node node)

/-- Element.from_svg_edge_label of the source (see engine). -/
def from_svg_edge_label (fuel : Nat) (edge_label : SvgNode) : M (List Element) :=
  engine fuel (.edgeLabel edge_label)

/-- Element.from_svg_tree of the source (see engine). -/
def from_svg_tree (fuel : Nat) (tree : SvgNode) (tx ty : ℚ) (tid? : Option String) :
    M (List Element) :=
  engine fuel (.tree tree tx ty tid?)

/-- The whole-tree walk at the top level: no accumulated translation and
a fresh tree id (the defaults of Element.from_svg_tree). -/
def elementsFromSvgTree (fuel : Nat) (tree : SvgNode) : M (List Element) :=
  from_svg_tree fuel tree 0 0 none

/-- Excalidraw.from_svg_tree of the source: wrap the reconstructed
elements into a scene document with default app state and no files. -/
def Excalidraw.from_svg_tree (fuel : Nat) (tree : SvgNode) : M Excalidraw := do
  let es ← elementsFromSvgTree fuel tree
  pure { elements := es }

/-! ### Claim support definitions: decidable invariants and concrete inputs -/

/-- The reciprocity invariant over a list of elements: every element
referenced from a boundElements list points back with its containerId,
and every containerId is listed by its container. -/
def reciprocal (es : List Element) : Bool :=
  es.all (fun a =>
    match a.bound_elements with
    | some bes => bes.all (fun be => es.all (fun b => b.id != be.id || b.container_id == some a.id))
    | none => true) &&
  es.all (fun b =>
    match b.container_id with
    | some cid =>
      es.any (fun a => a.id == cid && ((a.bound_elements.getD []).any (fun be => be.id == b.id)))
    | none => true)

def optCount (o : Option α) : Nat :=
  match o with
  | some _ => 1
  | none => 0

/-- How many container shapes (rect, polygon, circle, path) a node local
tree offers to the binding stages of from_svg_node. -/
def containerShapeCount (node : SvgNode) : Nat :=
  optCount (node.find? (isNamed "rect")) + optCount (node.find? (isNamed "polygon")) +
  optCount (node.find? (isNamed "circle")) + optCount (node.find? (isNamed "path"))

def runOk (x : Except PyErr (List Element × Nat)) : Bool :=
  match x with
  | .ok _ => true
  | .error _ => false

/-- C1 input: a nodes group whose single node holds only a rect, so the
rect gets an empty boundElements list. -/
def c1tree : SvgNode := .tag "[document]" [] [.tag "svg" [] [
  .tag "g" [("class", "nodes")] [
    .tag "g" [("class", "node default")] [
      .tag "rect" [("height", "30"), ("width", "40")] []]]]]

def c1elem : Element :=
  { type := .rectangle, x := -20, y := -15, width := 40, height := 30,
    id := "fresh-1", group_ids := ["fresh-2", "fresh-0"], bound_elements := some [] }

def c1doc : Excalidraw := { elements := [c1elem] }

/-- C1 witness document: every set optional field is truthy. -/
def c1wdoc : Excalidraw :=
  { elements := [
      { type := .rectangle, x := 1, y := 2, width := 3, height := 4, id := "r1",
        group_ids := ["g1"], bound_elements := some [{ id := "t1", type := .text }] },
      { type := .text, x := 5, y := 6, id := "t1", text := some "hi",
        font_size := some 16, font_family := some 2, text_align := some .center,
        vertical_align := some .middle, baseline := some 8, container_id := some "r1",
        original_text := some "hi" },
      { type := .arrow, id := "a1", points := some [(0, 0), (1, 1)],
        start_binding := some { element_id := "r1", focus := 1/2, gap := 4 },
        end_arrowhead := some .triangle }],
    files := [("f1", { mime_type := "image/png", id := "f1", data_url := "data:",
                       created := 17 })] }

/-- C2 input: a node whose local tree has two container shapes (rect and
circle) plus one foreignobject text. -/
def c2tree : SvgNode := .tag "[document]" [] [.tag "svg" [] [
  .tag "g" [("class", "nodes")] [
    .tag "g" [("class", "node default")] [
      .tag "foreignobject" [("width", "10"), ("height", "20")] [.txt "A"],
      .tag "rect" [("height", "30"), ("width", "40")] [],
      .tag "circle" [("r", "5")] []]]]]

def c2elems : List Element :=
  [{ type := .text, x := -5, y := -10, width := 10, height := 20, id := "fresh-1",
     group_ids := ["fresh-4", "fresh-0"], text := some "A", font_size := some 16,
     font_family := some 2, text_align := some .center, vertical_align := some .middle,
     baseline := some 18, container_id := some "fresh-3", original_text := some "A" },
   { type := .rectangle, x := -20, y := -15, width := 40, height := 30, id := "fresh-2",
     group_ids := ["fresh-4", "fresh-0"],
     bound_elements := some [{ id := "fresh-1", type := .text }] },
   { type := .ellipse, x := 0, y := -5/2, width := 10, height := 10, id := "fresh-3",
     group_ids := ["fresh-4", "fresh-0"],
     bound_elements := some [{ id := "fresh-1", type := .text }] }]

/-- C2 witness input: the same node with a single container shape. -/
def c2wnode : SvgNode := .tag "g" [("class", "node default")]
  [.tag "foreignobject" [("width", "10"), ("height", "20")] [.txt "A"],
   .tag "rect" [("height", "30"), ("width", "40")] []]

def c2welems : List Element :=
  [{ type := .text, x := -5, y := -10, width := 10, height := 20, id := "fresh-0",
     group_ids := ["fresh-2"], text := some "A", font_size := some 16,
     font_family := some 2, text_align := some .center, vertical_align := some .middle,
     baseline := some 18, container_id := some "fresh-1", original_text := some "A" },
   { type := .rectangle, x := -20, y := -15, width := 40, height := 30, id := "fresh-1",
     group_ids := ["fresh-2"],
     bound_elements := some [{ id := "fresh-0", type := .text }] }]

/-- C3 input: none of the four structural groups, one top-level rect and
one top-level text under the svg root. -/
def c3tree : SvgNode := .tag "[document]" [] [.tag "svg" []
  [.tag "rect" [("height", "30"), ("width", "40")] [],
   .tag "text" [("x", "5"), ("y", "6")] [.txt "hello"]]]

def c3elems : List Element :=
  [{ type := .rectangle, x := 0, y := 0, width := 40, height := 30, id := "fresh-1",
     group_ids := ["fresh-0"] },
   { type := .text, x := 5, y := 6, width := 80, height := 16, id := "fresh-3",
     group_ids := ["fresh-0"], text := some "hello", font_size := some 16,
     font_family := some 2, text_align := some .left, vertical_align := some .middle,
     baseline := some 16 }]

/-- The path command letters the while loop dispatches on. -/
def handledPathLetters : List Char :=
  ['L', 'M', 'N', 'n', 'C', 'A', 'a', 'l', 'z', 'Z']

/-- Alphabet letters pop_elts accepts that the loop does not handle:
these reach the final branch and raise the naming error. -/
def unhandledPathLetters : List Char :=
  ['m', 'H', 'h', 'V', 'v', 'c', 'S', 's', 'Q', 'q', 'T', 't']

/-- C4 input: the first edge path uses a Q command; a second valid edge
path follows. -/
def c4tree : SvgNode := .tag "[document]" [] [.tag "svg" [] [
  .tag "g" [("class", "edgePaths")] [
    .tag "g" [("class", "edgePath"), ("id", "L-A-B")] [
      .tag "path" [("d", "M0 0Q1 1 2 2")] []],
    .tag "g" [("class", "edgePath"), ("id", "L-B-C")] [
      .tag "path" [("d", "M0 0L5 5")] []]]]]

/-- C4 comparison input: only the valid second unit. -/
def c4treeGood : SvgNode := .tag "[document]" [] [.tag "svg" [] [
  .tag "g" [("class", "edgePaths")] [
    .tag "g" [("class", "edgePath"), ("id", "L-B-C")] [
      .tag "path" [("d", "M0 0L5 5")] []]]]]

/-- C5 input: a pathless edge path (skipped), a valid edge path, and an
edge label with no inner span. -/
def c5tree : SvgNode := .tag "[document]" [] [.tag "svg" [] [
  .tag "g" [("class", "edgePaths")] [
    .tag "g" [("class", "edgePath"), ("id", "L-A-B")] [],
    .tag "g" [("class", "edgePath"), ("id", "L-B-C")] [
      .tag "path" [("d", "M0 0L5 5")] []]],
  .tag "g" [("class", "edgeLabels")] [
    .tag "g" [("class", "edgeLabel")] []]]]

/-- C5 comparison input: the same document without the span-less label. -/
def c5treeGood : SvgNode := .tag "[document]" [] [.tag "svg" [] [
  .tag "g" [("class", "edgePaths")] [
    .tag "g" [("class", "edgePath"), ("id", "L-A-B")] [],
    .tag "g" [("class", "edgePath"), ("id", "L-B-C")] [
      .tag "path" [("d", "M0 0L5 5")] []]]]]

/-- C6 inputs: a cubic collinear along the y axis, and a cubic whose
declared endpoint has more than five decimal digits. -/
def c6path1 : SvgNode := .tag "path" [("d", "M0 0C1 0 2 0 3 0")] []

def c6path2 : SvgNode := .tag "path" [("d", "M0 0C0 1 1 2 1 2.0000005")] []

def c6elem1 : Element :=
  { type := .line, x := 0, y := 0, width := 3, height := 0, id := "fresh-0",
    stroke_sharpness := .round, points := some [(0, 0), (1, 0), (2, 0), (3, 0)] }

def c6elem2 : Element :=
  { type := .line, x := 0, y := 0, width := 1, height := 2, id := "fresh-0",
    stroke_sharpness := .round,
    points := some [(0, 0), (0, 1), (0.19, 1.19), (0.36, 1.36), (0.51, 1.51),
                    (0.64, 1.64), (0.75, 1.75), (0.84, 1.84), (0.91, 1.91),
                    (0.96, 1.96), (0.99, 1.99), (1, 2)] }

/-- C7 inputs: an implicit coordinate pair starting with a negative
numeral, and one starting with a multi-digit numeral. -/
def c7path : SvgNode := .tag "path" [("d", "M 1 2 -3 4")] []

def c7path2 : SvgNode := .tag "path" [("d", "M 10 20 30 40")] []

def c7elem2 : Element :=
  { type := .line, x := 10, y := 20, width := 7, height := 20, id := "fresh-0",
    stroke_sharpness := .round, points := some [(0, 0), (-7, 20)] }

/-- C9 witness state: an absolute arc command with its seven parameters. -/
def c9st : PathSt :=
  { elem := { type := .line, id := "w0", x := 1, y := 2, points := some [(0, 0)] },
    curX := 1, curY := 2, d := ["A", "5", "5", "0", "0", "1", "7", "8"] }

/-- C10 witness input: a plain numeric stroke width of 4. -/
def c10path : SvgNode := .tag "path" [("d", "M0 0L1 1"), ("style", "stroke-width:4")] []

def c10elem : Element :=
  { type := .line, x := 0, y := 0, width := 1, height := 1, id := "fresh-0",
    stroke_sharpness := .round, points := some [(0, 0), (1, 1)] }

/-! ## Theorems -/

unseal Rat.add Rat.mul Rat.inv Rat.sub Rat.ofScientific

@[simp] theorem M.bind_apply (x : M α) (f : α → M β) (s : Nat) :
    (x >>= f) s = match x s with
      | .ok (a, s') => f a s'
      | .error e => .error e := rfl

@[simp] theorem M.pure_apply (a : α) (s : Nat) :
    (pure a : M α) s = .ok (a, s) := rfl

@[simp] theorem M.lift_ok (a : α) (s : Nat) :
    (M.lift (.ok a)) s = .ok (a, s) := rfl

@[simp] theorem M.lift_error (e : PyErr) (s : Nat) :
    (M.lift (α := α) (.error e)) s = .error e := rfl

@[simp] theorem M.random_id_apply (s : Nat) :
    random_id s = .ok ("fresh-" ++ toString s, s + 1) := rfl

@[simp] theorem exceptBindOk (a : α) (f : α → Except PyErr β) :
    (Except.ok a >>= f) = f a := rfl

@[simp] theorem exceptBindError (e : PyErr) (f : α → Except PyErr β) :
    ((Except.error e : Except PyErr α) >>= f) = .error e := rfl

@[simp] theorem exceptMapOk (g : α → β) (a : α) :
    (Except.ok a : Except PyErr α).map g = .ok (g a) := rfl

@[simp] theorem exceptMapError (g : α → β) (e : PyErr) :
    (Except.error e : Except PyErr α).map g = .error e := rfl

@[simp] theorem exceptPureEq (a : α) : (pure a : Except PyErr α) = .ok a := rfl

@[simp] theorem typeEnum_ofValue_value (t : TypeEnum) : TypeEnum.ofValue t.value = some t := by
  cases t <;> rfl

@[simp] theorem arrowhead_ofValue_value (t : Arrowhead) : Arrowhead.ofValue t.value = some t := by
  cases t <;> rfl

@[simp] theorem style_ofValue_value (t : Style) : Style.ofValue t.value = some t := by
  cases t <;> rfl

@[simp] theorem strokeStyle_ofValue_value (t : StrokeStyle) :
    StrokeStyle.ofValue t.value = some t := by cases t <;> rfl

@[simp] theorem strokeSharpness_ofValue_value (t : StrokeSharpness) :
    StrokeSharpness.ofValue t.value = some t := by cases t <;> rfl

@[simp] theorem textAlign_ofValue_value (t : TextAlign) :
    TextAlign.ofValue t.value = some t := by cases t <;> rfl

@[simp] theorem verticalAlign_ofValue_value (t : VerticalAlign) :
    VerticalAlign.ofValue t.value = some t := by cases t <;> rfl

@[simp] theorem enumE_TypeEnum (t : TypeEnum) :
    enumE TypeEnum.ofValue t.value = .ok t := by cases t <;> rfl

@[simp] theorem enumE_Style (t : Style) :
    enumE Style.ofValue t.value = .ok t := by cases t <;> rfl

@[simp] theorem enumE_StrokeStyle (t : StrokeStyle) :
    enumE StrokeStyle.ofValue t.value = .ok t := by cases t <;> rfl

@[simp] theorem enumE_StrokeSharpness (t : StrokeSharpness) :
    enumE StrokeSharpness.ofValue t.value = .ok t := by cases t <;> rfl

@[simp] theorem enumOptE_Arrowhead (o : Option Arrowhead) :
    enumOptE Arrowhead.ofValue (o.map Arrowhead.value) = .ok o := by
  cases o with
  | none => rfl
  | some a => cases a <;> rfl

@[simp] theorem enumOptE_TextAlign (o : Option TextAlign) :
    enumOptE TextAlign.ofValue (o.map TextAlign.value) = .ok o := by
  cases o with
  | none => rfl
  | some a => cases a <;> rfl

@[simp] theorem enumOptE_VerticalAlign (o : Option VerticalAlign) :
    enumOptE VerticalAlign.ofValue (o.map VerticalAlign.value) = .ok o := by
  cases o with
  | none => rfl
  | some a => cases a <;> rfl

theorem pyKeep_eq_self {o : Option α} {p : α → Bool} (h : optTruthy o p = true) :
    pyKeep o p = o := by
  cases o with
  | none => rfl
  | some v =>
    simp [optTruthy] at h
    simp [pyKeep, h]

theorem optsTruthy_iff (e : Element) : e.optsTruthy = true ↔
    (optTruthy e.bound_elements listTruthy = true ∧
     optTruthy e.link strTruthy = true ∧
     optTruthy e.points listTruthy = true ∧
     optTruthy e.text strTruthy = true ∧
     optTruthy e.font_size numTruthy = true ∧
     optTruthy e.font_family intTruthy = true ∧
     optTruthy e.baseline numTruthy = true ∧
     optTruthy e.container_id strTruthy = true ∧
     optTruthy e.original_text strTruthy = true ∧
     optTruthy e.pressures listTruthy = true ∧
     optTruthy e.simulate_pressure boolTruthy = true ∧
     optTruthy e.status strTruthy = true ∧
     optTruthy e.file_id strTruthy = true ∧
     optTruthy e.scale listTruthy = true) := by
  simp [Element.optsTruthy, Bool.and_eq_true, and_assoc]

theorem boundElement_from_to_json (be : BoundElement) :
    BoundElement.from_json (BoundElement.to_json be) = .ok be := by
  cases be with
  | mk i t => cases t <;> rfl

theorem boundList_roundtrip (l : List BoundElement) :
    (l.map BoundElement.to_json).mapM BoundElement.from_json = .ok l := by
  rw [← List.mapM'_eq_mapM]
  induction l with
  | nil => rfl
  | cons a t ih =>
    simp [List.mapM', boundElement_from_to_json, ih]

/-- Decoding an encoded element restores it when every set optional field
is truthy. -/
theorem element_from_to_json (e : Element) (h : e.optsTruthy = true) :
    Element.from_json (Element.to_json e) = .ok e := by
  obtain ⟨h1, h2, h3, h4, h5, h6, h7, h8, h9, h10, h11, h12, h13, h14⟩ :=
    (optsTruthy_iff e).1 h
  simp only [Element.to_json, Element.from_json]
  rw [pyKeep_eq_self h1, pyKeep_eq_self h2, pyKeep_eq_self h3, pyKeep_eq_self h4,
      pyKeep_eq_self h5, pyKeep_eq_self h6, pyKeep_eq_self h7, pyKeep_eq_self h8,
      pyKeep_eq_self h9, pyKeep_eq_self h10, pyKeep_eq_self h11, pyKeep_eq_self h12,
      pyKeep_eq_self h13, pyKeep_eq_self h14]
  cases hbe : e.bound_elements with
  | none =>
    simp only [Option.map_none', enumE_TypeEnum, enumE_Style, enumE_StrokeStyle,
      enumE_StrokeSharpness, enumOptE_Arrowhead, enumOptE_TextAlign,
      enumOptE_VerticalAlign, exceptBindOk, exceptPureEq]
    rw [← hbe]
  | some l =>
    simp only [Option.map_some', boundList_roundtrip, enumE_TypeEnum, enumE_Style,
      enumE_StrokeStyle, enumE_StrokeSharpness, enumOptE_Arrowhead, enumOptE_TextAlign,
      enumOptE_VerticalAlign, exceptBindOk, exceptMapOk, exceptPureEq]
    rw [← hbe]

theorem elems_roundtrip (l : List Element) (h : l.all Element.optsTruthy = true) :
    (l.map Element.to_json).mapM Element.from_json = .ok l := by
  rw [← List.mapM'_eq_mapM]
  induction l with
  | nil => rfl
  | cons a t ih =>
    simp only [List.all_cons, Bool.and_eq_true] at h
    simp [List.mapM', element_from_to_json a h.1, ih h.2]

theorem file_from_to_json (f : File) : File.from_json (File.to_json f) = f := rfl

theorem files_roundtrip (fs : List (String × File)) :
    (fs.map (fun kv => (kv.1, kv.2.to_json))).map (fun kv => (kv.1, File.from_json kv.2)) = fs := by
  induction fs with
  | nil => rfl
  | cons a t ih => simp [ih, file_from_to_json]

/-- C1 (amended): decoding an encoded scene document restores it whenever
every set optional field of every element is truthy; an element with an
optional field set to a falsy value (such as an empty boundElements list)
decodes with that field unset, so the unrestricted round trip fails. -/
theorem C1_roundtrip_of_truthy (D : Excalidraw)
    (h : D.elements.all Element.optsTruthy = true) :
    Excalidraw.from_json (Excalidraw.to_json D) = .ok D := by
  simp only [Excalidraw.to_json, Excalidraw.from_json]
  rw [elems_roundtrip _ h]
  simp only [exceptBindOk, exceptPureEq, files_roundtrip]
  rfl

/-- C1 witness: a concrete three-element document with files round-trips. -/
theorem C1_roundtrip_witness :
    c1wdoc.elements.all Element.optsTruthy = true ∧
    Excalidraw.from_json (Excalidraw.to_json c1wdoc) = .ok c1wdoc :=
  ⟨by decide, C1_roundtrip_of_truthy c1wdoc (by decide)⟩

/-- C1 counterexample: the engine emits a rect with boundElements = [],
whose document does not survive the round trip. -/
theorem C1_counterexample :
    (Excalidraw.from_svg_tree 10 c1tree) 0 = .ok (c1doc, 3) ∧
    Excalidraw.from_json (Excalidraw.to_json c1doc) ≠ .ok c1doc := by
  constructor
  · rfl
  · decide

/-! ### Binding-freedom of the element constructors (toward C2) -/

/-- Elements are compared by id, boundElements and containerId in the
reciprocity invariant; group stamping touches none of them. -/
theorem reciprocal_map_stamp (es : List Element) (g : String) :
    reciprocal (es.map (fun o => { o with group_ids := [g] })) = reciprocal es := by
  simp [reciprocal, List.all_map, List.any_map, Function.comp_def]

theorem map_id_map_stamp (es : List Element) (g : String) :
    (es.map (fun o => { o with group_ids := [g] })).map Element.id = es.map Element.id := by
  simp [List.map_map, Function.comp_def]

/-- A list whose elements carry no binding references at all satisfies
the reciprocity invariant. -/
theorem reciprocal_of_no_refs (es : List Element)
    (h : ∀ e ∈ es, (e.bound_elements = none ∨ e.bound_elements = some []) ∧
         e.container_id = none) :
    reciprocal es = true := by
  simp only [reciprocal, Bool.and_eq_true, List.all_eq_true]
  constructor
  · intro a ha
    rcases (h a ha).1 with hb | hb <;> simp [hb]
  · intro b hb
    simp [(h b hb).2]

theorem foText_no_bindings (tx ty : ℚ) (fo : SvgNode) (s : Nat) (r : Option Element × Nat)
    (h : (foText tx ty fo) s = .ok r) :
    ∀ e, r.1 = some e → e.bound_elements = none ∧ e.container_id = none := by
  intro e he
  by_cases ht : fo.innerText = ""
  · simp only [foText, ht, if_true, if_false, ite_true, ite_false, M.pure_apply, Except.ok.injEq] at h
    subst h
    simp at he
  · simp only [foText, ht, if_true, if_false, ite_true, ite_false, M.bind_apply, Element.mkDefault,
      M.pure_apply, M.random_id_apply] at h
    cases hw : reqFloat fo "width" with
    | error e1 => simp [hw] at h
    | ok w =>
      cases hh : reqFloat fo "height" with
      | error e1 => simp [hw, hh] at h
      | ok hv =>
        simp only [hw, hh, M.lift_ok, M.bind_apply, M.pure_apply] at h
        cases hattr : fo.attr? "transform" with
        | none =>
          simp only [hattr, M.bind_apply, M.pure_apply, Except.ok.injEq] at h
          subst h
          simp only [Option.some.injEq] at he
          subst he
          exact ⟨rfl, rfl⟩
        | some sub =>
          by_cases hsub : sub = ""
          · simp only [hattr, hsub, if_true, if_false, ite_true, ite_false, M.bind_apply,
              M.pure_apply, Except.ok.injEq] at h
            subst h
            simp only [Option.some.injEq] at he
            subst he
            exact ⟨rfl, rfl⟩
          · simp only [hattr, hsub, if_true, if_false, ite_true, ite_false, M.bind_apply,
              M.pure_apply] at h
            cases hsp : splitTsfm sub with
            | error e1 => simp [hsp] at h
            | ok dd =>
              simp only [hsp, M.lift_ok, M.bind_apply, M.pure_apply, Except.ok.injEq] at h
              subst h
              simp only [Option.some.injEq] at he
              subst he
              exact ⟨rfl, rfl⟩

@[simp] theorem M.lift_apply (x : Except PyErr α) (s : Nat) :
    (M.lift x) s = match x with
      | .ok a => .ok (a, s)
      | .error e => .error e := by
  cases x <;> rfl

theorem rectBuild_no_bindings (e : Element) (d : RectData) :
    (rectBuild e d).bound_elements = e.bound_elements ∧
    (rectBuild e d).container_id = e.container_id := by
  unfold rectBuild
  repeat' split
  all_goals exact ⟨rfl, rfl⟩

theorem from_svg_rectangle_no_bindings (rt : SvgNode) (b : Bool) (s : Nat)
    (r : List Element × Nat) (h : (from_svg_rectangle rt b) s = .ok r) :
    ∀ e ∈ r.1, e.bound_elements = none ∧ e.container_id = none := by
  intro e he
  simp only [from_svg_rectangle, Element.mkDefault, M.bind_apply, M.pure_apply,
    M.random_id_apply, M.lift_apply] at h
  cases hd : rectReads rt b with
  | error e1 => simp [hd] at h
  | ok d =>
    simp only [hd, Except.ok.injEq] at h
    subst h
    simp only [List.mem_singleton] at he
    subst he
    exact rectBuild_no_bindings _ d

theorem from_svg_polygon_no_bindings (pg : SvgNode) (s : Nat)
    (r : List Element × Nat) (h : (from_svg_polygon pg) s = .ok r) :
    ∀ e ∈ r.1, e.bound_elements = none ∧ e.container_id = none := by
  intro e he
  simp only [from_svg_polygon, Element.mkDefault, M.bind_apply, M.pure_apply,
    M.random_id_apply, M.lift_apply] at h
  cases hd : polyReads pg with
  | error e1 => simp [hd] at h
  | ok d =>
    simp only [hd, Except.ok.injEq] at h
    subst h
    simp only [List.mem_singleton] at he
    subst he
    exact ⟨rfl, rfl⟩

theorem from_svg_circle_no_bindings (cc : SvgNode) (s : Nat)
    (r : List Element × Nat) (h : (from_svg_circle cc) s = .ok r) :
    ∀ e ∈ r.1, e.bound_elements = none ∧ e.container_id = none := by
  intro e he
  simp only [from_svg_circle, Element.mkDefault, M.bind_apply, M.pure_apply,
    M.random_id_apply, M.lift_apply] at h
  cases hd : circleReads cc with
  | error e1 => simp [hd] at h
  | ok d =>
    simp only [hd, Except.ok.injEq] at h
    subst h
    simp only [List.mem_singleton] at he
    subst he
    exact ⟨rfl, rfl⟩

/-- The while loop of the path parser only ever touches the point list
and cursor of its state: identification and binding fields survive. -/
theorem pathLoop_preserves (fuel : Nat) (st st' : PathSt)
    (h : pathLoop fuel st = .ok st') :
    st'.elem.bound_elements = st.elem.bound_elements ∧
    st'.elem.container_id = st.elem.container_id ∧
    st'.elem.stroke_width = st.elem.stroke_width := by
  induction fuel generalizing st with
  | zero =>
    simp only [pathLoop] at h
    split at h
    · cases h
      exact ⟨rfl, rfl, rfl⟩
    · simp at h
  | succ n ih =>
    simp only [pathLoop, bind, Except.bind] at h
    repeat' split at h
    all_goals try simp at h
    all_goals try (cases h; exact ⟨rfl, rfl, rfl⟩)
    all_goals (obtain ⟨p1, p2, p3⟩ := ih _ h; exact ⟨p1, p2, p3⟩)

theorem pathStyleApply_no_bindings (e : Element) (sty : List (String × StyleVal)) :
    (pathStyleApply e sty).bound_elements = e.bound_elements ∧
    (pathStyleApply e sty).container_id = e.container_id := by
  simp only [pathStyleApply]
  repeat' split
  all_goals exact ⟨rfl, rfl⟩

theorem from_svg_path_no_bindings (p : SvgNode) (s : Nat) (r : List Element × Nat)
    (h : (from_svg_path p) s = .ok r) :
    ∀ e ∈ r.1, e.bound_elements = none ∧ e.container_id = none := by
  intro e he
  simp only [from_svg_path, Element.mkDefault, M.bind_apply, M.pure_apply,
    M.random_id_apply, M.lift_apply] at h
  cases hd : p.reqAttr "d" with
  | error e1 => simp [hd] at h
  | ok dstr =>
    simp only [hd] at h
    cases hp : popElts 2 (tokenizePath dstr) with
    | error e1 => simp [hp] at h
    | ok v0d =>
      simp only [hp] at h
      obtain ⟨v0, d1⟩ := v0d
      dsimp only at h
      rcases v0 with _ | ⟨ax, _ | ⟨ay, _ | _⟩⟩
      case nil => simp at h
      case cons.nil => simp at h
      case cons.cons.cons => simp at h
      dsimp only at h
      cases hl : pathLoop d1.length
          (pathInit (pathStyleApply { type := TypeEnum.line, id := "fresh-" ++ toString s }
            (parse_style (p.attr? "style"))) ax ay d1) with
      | error e1 => rw [hl] at h; simp at h
      | ok stF =>
        rw [hl] at h
        simp only [M.lift_ok, M.bind_apply, M.pure_apply, Except.ok.injEq] at h
        subst h
        simp only [List.mem_singleton] at he
        subst he
        obtain ⟨pb, pc, _⟩ := pathLoop_preserves _ _ _ hl
        have hb0 := (pathStyleApply_no_bindings
          { type := TypeEnum.line, id := "fresh-" ++ toString s }
          (parse_style (p.attr? "style"))).1
        have hc0 := (pathStyleApply_no_bindings
          { type := TypeEnum.line, id := "fresh-" ++ toString s }
          (parse_style (p.attr? "style"))).2
        constructor
        · show (_ : Element).bound_elements = none
          repeat' split
          all_goals (show stF.elem.bound_elements = none; rw [pb]; exact hb0)
        · show (_ : Element).container_id = none
          repeat' split
          all_goals (show stF.elem.container_id = none; rw [pc]; exact hc0)

theorem tspanFold_no_bindings (l : List (Nat × SvgNode)) (x1 y1 tx ty rw rh : ℚ)
    (tid : String) (dx dy : ℚ) (s : Nat) (r : List Element × Nat)
    (h : (tspanFold x1 y1 tx ty rw rh tid dx dy l) s = .ok r) :
    ∀ e ∈ r.1, e.bound_elements = none ∧ e.container_id = none := by
  induction l generalizing dx dy s r with
  | nil =>
    simp only [tspanFold, M.pure_apply, Except.ok.injEq] at h
    subst h
    simp
  | cons hd tl ih =>
    obtain ⟨i, ts⟩ := hd
    intro e he
    by_cases hf : tspanFiltered ts.innerText
    · simp only [tspanFold, hf, eq_self_iff_true, if_true, ite_true] at h
      exact ih _ _ _ _ h e he
    · simp only [tspanFold, hf, Bool.false_eq_true, if_true, if_false, ite_true, ite_false,
        Element.mkDefault, M.bind_apply, M.pure_apply, M.random_id_apply] at h
      cases hrec : tspanFold x1 y1 tx ty rw rh tid
          (dx + size_attr_to_float (ts.attr? "dx")) (dy + size_attr_to_float (ts.attr? "dy"))
          tl (s + 1) with
      | error e1 => rw [hrec] at h; simp at h
      | ok more =>
        rw [hrec] at h
        simp only [M.pure_apply, Except.ok.injEq] at h
        subst h
        simp only [List.mem_cons] at he
        rcases he with he | he
        · subst he
          exact ⟨rfl, rfl⟩
        · exact ih _ _ _ _ hrec e he

theorem textStep_no_bindings (tx ty rw rh : ℚ) (t : SvgNode) (s : Nat)
    (r : List Element × Nat) (h : (textStep tx ty rw rh t) s = .ok r) :
    ∀ e ∈ r.1, e.bound_elements = none ∧ e.container_id = none := by
  intro e he
  simp only [textStep, M.bind_apply, M.pure_apply, M.random_id_apply] at h
  by_cases hts : (t.findAll (isNamed "tspan")).isEmpty
  · simp only [hts, if_true, ite_true, from_svg_text, Element.mkDefault, M.bind_apply,
      M.pure_apply, M.random_id_apply, Except.ok.injEq] at h
    subst h
    simp at he
  · simp only [hts, if_false, ite_false] at h
    exact tspanFold_no_bindings _ _ _ _ _ _ _ _ _ _ _ _ h e he

theorem textElems_no_bindings (l : List SvgNode) (tx ty rw rh : ℚ) (s : Nat)
    (r : List Element × Nat) (h : (textElems tx ty rw rh l) s = .ok r) :
    ∀ e ∈ r.1, e.bound_elements = none ∧ e.container_id = none := by
  induction l generalizing s r with
  | nil =>
    simp only [textElems, M.pure_apply, Except.ok.injEq] at h
    subst h
    simp
  | cons hd tl ih =>
    intro e he
    simp only [textElems, M.bind_apply] at h
    cases h1 : (textStep tx ty rw rh hd) s with
    | error e1 => rw [h1] at h; simp at h
    | ok r1 =>
      rw [h1] at h
      simp only [] at h
      cases h2 : (textElems tx ty rw rh tl) r1.2 with
      | error e1 =>
        obtain ⟨es1, s1⟩ := r1
        rw [h2] at h
        simp at h
      | ok r2 =>
        obtain ⟨es1, s1⟩ := r1
        obtain ⟨es2, s2⟩ := r2
        rw [h2] at h
        simp only [M.pure_apply, Except.ok.injEq] at h
        subst h
        simp only [List.mem_append] at he
        rcases he with he | he
        · exact textStep_no_bindings _ _ _ _ _ _ _ h1 e he
        · exact ih _ _ h2 e he

theorem foTexts_no_bindings (l : List SvgNode) (tx ty : ℚ) (s : Nat)
    (r : List Element × Nat) (h : (foTexts tx ty l) s = .ok r) :
    ∀ e ∈ r.1, e.bound_elements = none ∧ e.container_id = none := by
  induction l generalizing s r with
  | nil =>
    simp only [foTexts, M.pure_apply, Except.ok.injEq] at h
    subst h
    simp
  | cons fo tl ih =>
    intro e he
    simp only [foTexts, M.bind_apply] at h
    cases h1 : (foText tx ty fo) s with
    | error e1 => rw [h1] at h; simp at h
    | ok r1 =>
      rw [h1] at h
      simp only [] at h
      cases h2 : (foTexts tx ty tl) r1.2 with
      | error e1 =>
        obtain ⟨o1, s1⟩ := r1
        rw [h2] at h
        simp at h
      | ok r2 =>
        obtain ⟨o1, s1⟩ := r1
        obtain ⟨es2, s2⟩ := r2
        rw [h2] at h
        simp only [M.pure_apply, Except.ok.injEq] at h
        subst h
        cases o1 with
        | none => exact ih _ _ h2 e he
        | some x =>
          simp only [List.mem_cons] at he
          rcases he with he | he
          · subst he
            exact foText_no_bindings _ _ _ _ _ h1 e rfl
          · exact ih _ _ h2 e he

theorem headE_ok (es : List Element) (s : Nat) (a : Element) (s1 : Nat)
    (h : headE es s = .ok (a, s1)) : a ∈ es := by
  cases es with
  | nil => simp [headE] at h
  | cons x t =>
    simp only [headE, M.pure_apply, Except.ok.injEq, Prod.mk.injEq] at h
    rw [← h.1]
    exact List.mem_cons_self x t

/-- Sufficient conditions for the reciprocity invariant, phrased with
propositional membership. -/
theorem reciprocal_intro (es : List Element)
    (h1 : ∀ a ∈ es, ∀ bes, a.bound_elements = some bes → ∀ be ∈ bes, ∀ b ∈ es,
            b.id = be.id → b.container_id = some a.id)
    (h2 : ∀ b ∈ es, ∀ cid, b.container_id = some cid → ∃ a, a ∈ es ∧ a.id = cid ∧
            ∃ be, be ∈ a.bound_elements.getD [] ∧ be.id = b.id) :
    reciprocal es = true := by
  simp only [reciprocal, Bool.and_eq_true, List.all_eq_true]
  constructor
  · intro a ha
    cases hbe : a.bound_elements with
    | none => rfl
    | some bes =>
      simp only [List.all_eq_true]
      intro be hb2 b hb
      rw [Bool.or_eq_true]
      by_cases hid : b.id = be.id
      · exact Or.inr (beq_iff_eq.mpr (h1 a ha bes hbe be hb2 b hb hid))
      · exact Or.inl (bne_iff_ne.mpr hid)
  · intro b hb
    cases hc : b.container_id with
    | none => rfl
    | some cid =>
      obtain ⟨a, ha, haid, be, hbe, hbeid⟩ := h2 b hb cid hc
      simp only [List.any_eq_true]
      refine ⟨a, ha, ?_⟩
      rw [Bool.and_eq_true]
      exact ⟨beq_iff_eq.mpr haid, List.any_eq_true.mpr ⟨be, hbe, beq_iff_eq.mpr hbeid⟩⟩

/-- Reciprocity for a list made of one container, one bound text and
otherwise reference-free elements with pairwise distinct ids. -/
theorem reciprocal_one_pair (es : List Element) (tid shid : String) (tty : TypeEnum)
    (hmem : ∀ a ∈ es,
      (a.bound_elements = none ∧ a.container_id = none) ∨
      (a.id = tid ∧ a.bound_elements = none ∧ a.container_id = some shid) ∨
      (a.id = shid ∧ a.bound_elements = some [BoundElement.mk tid tty] ∧
       a.container_id = none))
    (ht : ∃ t0, t0 ∈ es ∧ t0.id = tid ∧ t0.container_id = some shid)
    (hsh : ∃ a0, a0 ∈ es ∧ a0.id = shid ∧
           a0.bound_elements = some [BoundElement.mk tid tty])
    (hinj : ∀ x ∈ es, ∀ y ∈ es, x.id = y.id → x = y) :
    reciprocal es = true := by
  apply reciprocal_intro
  · intro a ha bes hbe be hbe2 b hb hbid
    rcases hmem a ha with ⟨h1, _⟩ | ⟨_, h1, _⟩ | ⟨haid, h1, _⟩
    · rw [h1] at hbe; cases hbe
    · rw [h1] at hbe; cases hbe
    · rw [h1] at hbe
      simp only [Option.some.injEq] at hbe
      subst hbe
      simp only [List.mem_singleton] at hbe2
      subst hbe2
      have hb2 : b.id = tid := hbid
      obtain ⟨t0, ht0, ht0id, ht0c⟩ := ht
      have hbt : b = t0 := hinj b hb t0 ht0 (by rw [hb2, ht0id])
      rw [hbt, ht0c, haid]
  · intro b hb cid hc
    rcases hmem b hb with ⟨_, h1⟩ | ⟨hbid, _, h1⟩ | ⟨_, _, h1⟩
    · rw [h1] at hc; cases hc
    · rw [h1] at hc
      injection hc with hc
      obtain ⟨a0, ha0, ha0id, ha0be⟩ := hsh
      refine ⟨a0, ha0, ?_, ⟨BoundElement.mk tid tty, ?_, ?_⟩⟩
      · rw [ha0id, hc]
      · rw [ha0be]
        exact List.mem_singleton.mpr rfl
      · exact hbid.symm
    · rw [h1] at hc; cases hc

theorem rectStage_some_spec (rt : SvgNode) (tx ty : ℚ) (txts lns : List Element)
    (fo : Bool) (s : Nat)
    (out : (Option Element × List Element × List Element × ℚ × ℚ) × Nat)
    (h : rectStage (some rt) tx ty txts lns fo s = .ok out) :
    ∃ r2 : Element,
      out.1 = (some r2, (if fo then updCont r2.id txts else txts),
               updCont r2.id lns, r2.width, r2.height) ∧
      r2.bound_elements = some (joinerBound lns txts fo) ∧
      r2.container_id = none := by
  simp only [rectStage, M.bind_apply] at h
  cases h1 : from_svg_rectangle rt false s with
  | error e1 => rw [h1] at h; simp at h
  | ok rs1 =>
    rw [h1] at h
    simp only [] at h
    cases h2 : headE rs1.1 rs1.2 with
    | error e1 => rw [h2] at h; simp at h
    | ok r0s =>
      rw [h2] at h
      simp only [M.pure_apply, Except.ok.injEq] at h
      subst h
      have hnb := from_svg_rectangle_no_bindings rt false s rs1 h1 r0s.1
        (headE_ok rs1.1 rs1.2 r0s.1 r0s.2 (by rw [h2]))
      exact ⟨_, rfl, rfl, hnb.2⟩

theorem polyStage_some_spec (pg : SvgNode) (tx ty : ℚ) (txts lns : List Element)
    (fo : Bool) (s : Nat)
    (out : (Option Element × List Element × List Element) × Nat)
    (h : polyStage (some pg) tx ty txts lns fo s = .ok out) :
    ∃ p2 : Element,
      out.1 = (some p2, (if fo then updCont p2.id txts else txts),
               updCont p2.id lns) ∧
      p2.bound_elements = some (joinerBound lns txts fo) ∧
      p2.container_id = none := by
  simp only [polyStage, M.bind_apply] at h
  cases h1 : from_svg_polygon pg s with
  | error e1 => rw [h1] at h; simp at h
  | ok rs1 =>
    rw [h1] at h
    simp only [] at h
    cases h2 : headE rs1.1 rs1.2 with
    | error e1 => rw [h2] at h; simp at h
    | ok r0s =>
      rw [h2] at h
      simp only [M.pure_apply, Except.ok.injEq] at h
      subst h
      have hnb := from_svg_polygon_no_bindings pg s rs1 h1 r0s.1
        (headE_ok rs1.1 rs1.2 r0s.1 r0s.2 (by rw [h2]))
      exact ⟨_, rfl, rfl, hnb.2⟩

theorem circStage_some_spec (cc : SvgNode) (tx ty : ℚ) (txts lns : List Element)
    (fo : Bool) (s : Nat)
    (out : (Option Element × List Element × List Element) × Nat)
    (h : circStage (some cc) tx ty txts lns fo s = .ok out) :
    ∃ c2 : Element,
      out.1 = (some c2, (if fo then updCont c2.id txts else txts),
               updCont c2.id lns) ∧
      c2.bound_elements = some (joinerBound lns txts fo) ∧
      c2.container_id = none := by
  simp only [circStage, M.bind_apply] at h
  cases h1 : from_svg_circle cc s with
  | error e1 => rw [h1] at h; simp at h
  | ok rs1 =>
    rw [h1] at h
    simp only [] at h
    cases h2 : headE rs1.1 rs1.2 with
    | error e1 => rw [h2] at h; simp at h
    | ok r0s =>
      rw [h2] at h
      simp only [M.pure_apply, Except.ok.injEq] at h
      subst h
      have hnb := from_svg_circle_no_bindings cc s rs1 h1 r0s.1
        (headE_ok rs1.1 rs1.2 r0s.1 r0s.2 (by rw [h2]))
      exact ⟨_, rfl, rfl, hnb.2⟩

theorem pathStage_some_spec (pt : SvgNode) (tx ty : ℚ) (txts lns : List Element)
    (fo : Bool) (s : Nat)
    (out : (Option Element × List Element × List Element) × Nat)
    (h : pathStage (some pt) tx ty txts lns fo s = .ok out) :
    ∃ p2 : Element,
      out.1 = (some p2, (if fo then updCont p2.id txts else txts),
               updCont p2.id lns) ∧
      p2.bound_elements = some (joinerBound lns txts fo) ∧
      p2.container_id = none := by
  simp only [pathStage, M.bind_apply] at h
  cases h1 : from_svg_path pt s with
  | error e1 => rw [h1] at h; simp at h
  | ok rs1 =>
    rw [h1] at h
    simp only [] at h
    cases h2 : headE rs1.1 rs1.2 with
    | error e1 => rw [h2] at h; simp at h
    | ok r0s =>
      rw [h2] at h
      simp only [M.pure_apply, Except.ok.injEq] at h
      subst h
      have hnb := from_svg_path_no_bindings pt s rs1 h1 r0s.1
        (headE_ok rs1.1 rs1.2 r0s.1 r0s.2 (by rw [h2]))
      exact ⟨_, rfl, rfl, hnb.2⟩

/-- A non-root node is handled entirely by the non-recursive node body. -/
theorem from_svg_node_nonroot (fuel : Nat) (node : SvgNode)
    (hroot : node.hasClass "root" = false) :
    from_svg_node (fuel + 1) node =
    nodeNonRoot node (parseNodeTransform (node.attr? "transform")).1
      (parseNodeTransform (node.attr? "transform")).2 := by
  funext s
  simp [from_svg_node, engine, hroot]

/-- Reciprocity of the element list a non-root node assembles around a
single container shape: the joiner texts point at the shape exactly when
the shape lists them, and every other element carries no references. -/
theorem reciprocal_node_core (txts0 tsp objs : List Element) (sh : Element) (fo : Bool)
    (hmem : ∀ a, a ∈ objs ↔
      (a ∈ (if fo then updCont sh.id txts0 else txts0) ∨ a = sh ∨ a ∈ tsp))
    (htx : ∀ e ∈ txts0, e.bound_elements = none ∧ e.container_id = none)
    (htsp : ∀ e ∈ tsp, e.bound_elements = none ∧ e.container_id = none)
    (hbe : sh.bound_elements = some (joinerBound [] txts0 fo))
    (hcid : sh.container_id = none)
    (hinj : ∀ x ∈ objs, ∀ y ∈ objs, x.id = y.id → x = y) :
    reciprocal objs = true := by
  cases fo with
  | false =>
    apply reciprocal_of_no_refs
    intro a ha
    rcases (hmem a).mp ha with h | h | h
    · simp only [Bool.false_eq_true, if_false, ite_false] at h
      exact ⟨Or.inl (htx a h).1, (htx a h).2⟩
    · subst h
      refine ⟨Or.inr ?_, hcid⟩
      rw [hbe]
      simp [joinerBound]
    · exact ⟨Or.inl (htsp a h).1, (htsp a h).2⟩
  | true =>
    apply reciprocal_intro
    · intro a ha bes hbes be hbe2 b hb hbid
      rcases (hmem a).mp ha with h | h | h
      · simp only [eq_self_iff_true, if_true, ite_true, updCont, List.mem_map] at h
        obtain ⟨t, htmem, rfl⟩ := h
        have hb2 : t.bound_elements = some bes := hbes
        rw [(htx t htmem).1] at hb2
        cases hb2
      · subst h
        rw [hbe] at hbes
        simp only [Option.some.injEq] at hbes
        subst hbes
        have hbf : be ∈ txts0.map (fun t => BoundElement.mk t.id t.type) := by
          simpa [joinerBound] using hbe2
        obtain ⟨t, htmem, rfl⟩ := List.mem_map.mp hbf
        have htin : ({ t with container_id := some a.id } : Element) ∈ objs :=
          (hmem _).mpr (Or.inl (by
            simp only [eq_self_iff_true, if_true, ite_true, updCont, List.mem_map]
            exact ⟨t, htmem, rfl⟩))
        have hbt : b = { t with container_id := some a.id } :=
          hinj b hb _ htin hbid
        rw [hbt]
      · rw [(htsp a h).1] at hbes
        cases hbes
    · intro b hb cid hc
      rcases (hmem b).mp hb with h | h | h
      · simp only [eq_self_iff_true, if_true, ite_true, updCont, List.mem_map] at h
        obtain ⟨t, htmem, rfl⟩ := h
        have hc2 : some sh.id = some cid := hc
        injection hc2 with hc2
        refine ⟨sh, (hmem sh).mpr (Or.inr (Or.inl rfl)), ?_, ?_⟩
        · exact hc2
        · refine ⟨BoundElement.mk t.id t.type, ?_, rfl⟩
          rw [hbe]
          simp only [Option.getD_some, joinerBound, List.nil_append, eq_self_iff_true,
            if_true, ite_true]
          exact List.mem_map.mpr ⟨t, htmem, rfl⟩
      · subst h
        rw [hcid] at hc
        cases hc
      · rw [(htsp b h).2] at hc
        cases hc

/-- C2: reciprocity of boundElements/containerId, amended. For a non-root
node (the binding branch of Element.from_svg_node) whose local tree has no
line joiners and at most one container shape (rect, polygon, circle or
path), a successful reconstruction whose elements have pairwise distinct
ids satisfies the invariant: every element referenced from a boundElements
list points back with its containerId and vice versa. The claim as stated
also asserts this when a node tree holds more than one container shape;
there each later shape re-aims the texts containerId while the earlier
shape keeps listing them, and the invariant fails (C2_counterexample). -/
theorem C2_reciprocity_single_container (fuel : Nat) (node : SvgNode) (s : Nat)
    (es : List Element) (s2 : Nat)
    (hroot : node.hasClass "root" = false)
    (hline : node.findAll (isNamed "line") = [])
    (hcnt : containerShapeCount node ≤ 1)
    (hrun : from_svg_node (fuel + 1) node s = .ok (es, s2))
    (hids : (es.map Element.id).Nodup) :
    reciprocal es = true := by
  rw [from_svg_node_nonroot fuel node hroot] at hrun
  generalize (parseNodeTransform (node.attr? "transform")).1 = tx at hrun
  generalize (parseNodeTransform (node.attr? "transform")).2 = ty at hrun
  simp only [nodeNonRoot, M.bind_apply, M.random_id_apply] at hrun
  cases h0 : foTexts tx ty (node.findAll (isNamed "foreignobject")) s with
  | error e1 => rw [h0] at hrun; simp at hrun
  | ok ts0 =>
    obtain ⟨txts0, s0⟩ := ts0
    rw [h0] at hrun
    simp only [] at hrun
    rw [hline] at hrun
    simp only [lineFold, M.pure_apply] at hrun
    cases hR : node.find? (isNamed "rect") with
    | some rt =>
      have hP : node.find? (isNamed "polygon") = none := by
        cases hx : node.find? (isNamed "polygon") with
        | none => rfl
        | some _ =>
          simp only [containerShapeCount, hR, hx, optCount] at hcnt
          omega
      have hC : node.find? (isNamed "circle") = none := by
        cases hx : node.find? (isNamed "circle") with
        | none => rfl
        | some _ =>
          simp only [containerShapeCount, hR, hx, optCount] at hcnt
          omega
      have hPt : node.find? (isNamed "path") = none := by
        cases hx : node.find? (isNamed "path") with
        | none => rfl
        | some _ =>
          simp only [containerShapeCount, hR, hx, optCount] at hcnt
          omega
      rw [hR] at hrun
      cases hrs : rectStage (some rt) tx ty txts0 [] (decide (txts0.length = 1)) s0 with
      | error e1 => rw [hrs] at hrun; simp at hrun
      | ok outR =>
        rw [hrs] at hrun
        simp only [] at hrun
        obtain ⟨r2, houtR, hbeR, hcidR⟩ :=
          rectStage_some_spec rt tx ty txts0 [] (decide (txts0.length = 1)) s0 outR hrs
        rw [houtR] at hrun
        simp only [] at hrun
        cases h3 : textElems tx ty r2.width r2.height (node.findAll (isNamed "text")) outR.2 with
        | error e1 => rw [h3] at hrun; simp at hrun
        | ok ts3 =>
          obtain ⟨tsp, s3⟩ := ts3
          rw [h3] at hrun
          simp only [] at hrun
          rw [hP, hC, hPt] at hrun
          simp only [polyStage, circStage, pathStage, M.pure_apply, M.random_id_apply,
            M.bind_apply] at hrun
          simp only [Except.ok.injEq, Prod.mk.injEq] at hrun
          obtain ⟨hes, _⟩ := hrun
          subst hes
          rw [reciprocal_map_stamp]
          rw [map_id_map_stamp] at hids
          apply reciprocal_node_core txts0 tsp _ r2 (decide (txts0.length = 1))
          · intro a
            simp only [List.mem_append, Option.toList_some, Option.toList_none, updCont,
              List.map_nil, List.mem_singleton, List.not_mem_nil, or_false, false_or]
            tauto
          · exact foTexts_no_bindings _ _ _ _ _ h0
          · exact textElems_no_bindings _ _ _ _ _ _ _ h3
          · exact hbeR
          · exact hcidR
          · exact List.inj_on_of_nodup_map hids
    | none =>
      cases hP : node.find? (isNamed "polygon") with
      | some pg =>
        have hC : node.find? (isNamed "circle") = none := by
          cases hx : node.find? (isNamed "circle") with
          | none => rfl
          | some _ =>
            simp only [containerShapeCount, hR, hP, hx, optCount] at hcnt
            omega
        have hPt : node.find? (isNamed "path") = none := by
          cases hx : node.find? (isNamed "path") with
          | none => rfl
          | some _ =>
            simp only [containerShapeCount, hR, hP, hx, optCount] at hcnt
            omega
        rw [hR] at hrun
        simp only [rectStage, M.pure_apply] at hrun
        cases h3 : textElems tx ty 0 0 (node.findAll (isNamed "text")) s0 with
        | error e1 => rw [h3] at hrun; simp at hrun
        | ok ts3 =>
          obtain ⟨tsp, s3⟩ := ts3
          rw [h3] at hrun
          simp only [] at hrun
          rw [hP] at hrun
          cases hps : polyStage (some pg) tx ty txts0 [] (decide (txts0.length = 1)) s3 with
          | error e1 => rw [hps] at hrun; simp at hrun
          | ok outP =>
            rw [hps] at hrun
            simp only [] at hrun
            obtain ⟨p2, houtP, hbeP, hcidP⟩ :=
              polyStage_some_spec pg tx ty txts0 [] (decide (txts0.length = 1)) s3 outP hps
            rw [houtP] at hrun
            simp only [] at hrun
            rw [hC, hPt] at hrun
            simp only [circStage, pathStage, M.pure_apply, M.random_id_apply,
              M.bind_apply] at hrun
            simp only [Except.ok.injEq, Prod.mk.injEq] at hrun
            obtain ⟨hes, _⟩ := hrun
            subst hes
            rw [reciprocal_map_stamp]
            rw [map_id_map_stamp] at hids
            apply reciprocal_node_core txts0 tsp _ p2 (decide (txts0.length = 1))
            · intro a
              simp only [List.mem_append, Option.toList_some, Option.toList_none, updCont,
                List.map_nil, List.mem_singleton, List.not_mem_nil, or_false, false_or]
              tauto
            · exact foTexts_no_bindings _ _ _ _ _ h0
            · exact textElems_no_bindings _ _ _ _ _ _ _ h3
            · exact hbeP
            · exact hcidP
            · exact List.inj_on_of_nodup_map hids
      | none =>
        cases hC : node.find? (isNamed "circle") with
        | some cc =>
          have hPt : node.find? (isNamed "path") = none := by
            cases hx : node.find? (isNamed "path") with
            | none => rfl
            | some _ =>
              simp only [containerShapeCount, hR, hP, hC, hx, optCount] at hcnt
              omega
          rw [hR] at hrun
          simp only [rectStage, M.pure_apply] at hrun
          cases h3 : textElems tx ty 0 0 (node.findAll (isNamed "text")) s0 with
          | error e1 => rw [h3] at hrun; simp at hrun
          | ok ts3 =>
            obtain ⟨tsp, s3⟩ := ts3
            rw [h3] at hrun
            simp only [] at hrun
            rw [hP] at hrun
            simp only [polyStage, M.pure_apply] at hrun
            rw [hC] at hrun
            cases hcs : circStage (some cc) tx ty txts0 [] (decide (txts0.length = 1)) s3 with
            | error e1 => rw [hcs] at hrun; simp at hrun
            | ok outC =>
              rw [hcs] at hrun
              simp only [] at hrun
              obtain ⟨c2, houtC, hbeC, hcidC⟩ :=
                circStage_some_spec cc tx ty txts0 [] (decide (txts0.length = 1)) s3 outC hcs
              rw [houtC] at hrun
              simp only [] at hrun
              rw [hPt] at hrun
              simp only [pathStage, M.pure_apply, M.random_id_apply, M.bind_apply] at hrun
              simp only [Except.ok.injEq, Prod.mk.injEq] at hrun
              obtain ⟨hes, _⟩ := hrun
              subst hes
              rw [reciprocal_map_stamp]
              rw [map_id_map_stamp] at hids
              apply reciprocal_node_core txts0 tsp _ c2 (decide (txts0.length = 1))
              · intro a
                simp only [List.mem_append, Option.toList_some, Option.toList_none, updCont,
                  List.map_nil, List.mem_singleton, List.not_mem_nil, or_false, false_or]
                tauto
              · exact foTexts_no_bindings _ _ _ _ _ h0
              · exact textElems_no_bindings _ _ _ _ _ _ _ h3
              · exact hbeC
              · exact hcidC
              · exact List.inj_on_of_nodup_map hids
        | none =>
          cases hPt : node.find? (isNamed "path") with
          | some pt =>
            rw [hR] at hrun
            simp only [rectStage, M.pure_apply] at hrun
            cases h3 : textElems tx ty 0 0 (node.findAll (isNamed "text")) s0 with
            | error e1 => rw [h3] at hrun; simp at hrun
            | ok ts3 =>
              obtain ⟨tsp, s3⟩ := ts3
              rw [h3] at hrun
              simp only [] at hrun
              rw [hP, hC] at hrun
              simp only [polyStage, circStage, M.pure_apply] at hrun
              rw [hPt] at hrun
              cases hts : pathStage (some pt) tx ty txts0 [] (decide (txts0.length = 1)) s3 with
              | error e1 => rw [hts] at hrun; simp at hrun
              | ok outT =>
                rw [hts] at hrun
                simp only [] at hrun
                obtain ⟨p2, houtT, hbeT, hcidT⟩ :=
                  pathStage_some_spec pt tx ty txts0 [] (decide (txts0.length = 1)) s3 outT hts
                rw [houtT] at hrun
                simp only [] at hrun
                simp only [Except.ok.injEq, Prod.mk.injEq] at hrun
                obtain ⟨hes, _⟩ := hrun
                subst hes
                rw [reciprocal_map_stamp]
                rw [map_id_map_stamp] at hids
                apply reciprocal_node_core txts0 tsp _ p2 (decide (txts0.length = 1))
                · intro a
                  simp only [List.mem_append, Option.toList_some, Option.toList_none, updCont,
                    List.map_nil, List.mem_singleton, List.not_mem_nil, or_false, false_or]
                  tauto
                · exact foTexts_no_bindings _ _ _ _ _ h0
                · exact textElems_no_bindings _ _ _ _ _ _ _ h3
                · exact hbeT
                · exact hcidT
                · exact List.inj_on_of_nodup_map hids
          | none =>
            rw [hR] at hrun
            simp only [rectStage, M.pure_apply] at hrun
            cases h3 : textElems tx ty 0 0 (node.findAll (isNamed "text")) s0 with
            | error e1 => rw [h3] at hrun; simp at hrun
            | ok ts3 =>
              obtain ⟨tsp, s3⟩ := ts3
              rw [h3] at hrun
              simp only [] at hrun
              rw [hP, hC, hPt] at hrun
              simp only [polyStage, circStage, pathStage, M.pure_apply, M.random_id_apply,
                M.bind_apply] at hrun
              simp only [Except.ok.injEq, Prod.mk.injEq] at hrun
              obtain ⟨hes, _⟩ := hrun
              subst hes
              rw [reciprocal_map_stamp]
              apply reciprocal_of_no_refs
              intro a ha
              simp only [List.mem_append, Option.toList_none, List.not_mem_nil, or_false,
                false_or] at ha
              rcases ha with ha | ha
              · exact ⟨Or.inl (foTexts_no_bindings _ _ _ _ _ h0 a ha).1,
                  (foTexts_no_bindings _ _ _ _ _ h0 a ha).2⟩
              · exact ⟨Or.inl (textElems_no_bindings _ _ _ _ _ _ _ h3 a ha).1,
                  (textElems_no_bindings _ _ _ _ _ _ _ h3 a ha).2⟩

set_option maxRecDepth 10000 in
/-- C2 witness: a node with one foreignobject text and a single container
shape (a rect); the amended reciprocity theorem applies to its
reconstruction and the invariant holds. -/
theorem C2_reciprocity_witness :
    c2wnode.hasClass "root" = false ∧ c2wnode.findAll (isNamed "line") = [] ∧
    containerShapeCount c2wnode ≤ 1 ∧
    from_svg_node 10 c2wnode 0 = .ok (c2welems, 3) ∧
    (c2welems.map Element.id).Nodup ∧ reciprocal c2welems = true :=
  ⟨by decide, by rfl, by decide, by rfl, by decide,
   C2_reciprocity_single_container 9 c2wnode 0 c2welems 3 (by decide) (by rfl)
     (by decide) (by rfl) (by decide)⟩

set_option maxRecDepth 10000 in
/-- C2 counterexample: a document whose single node holds two container
shapes (rect and circle). The text keeps containerId = circle id while the
rectangle still lists the text in its boundElements, so the reciprocity
invariant fails on the full document from_svg_tree produces. -/
theorem C2_counterexample :
    (from_svg_tree 10 c2tree 0 0 none) 0 = .ok (c2elems, 5) ∧
    reciprocal c2elems = false := by
  constructor
  · rfl
  · decide

theorem fresh_ne_empty (x : String) : ("fresh-" ++ x) ≠ "" := by
  intro h
  have h2 : ("fresh-" ++ x).length = ("").length := by rw [h]
  rw [String.length_append] at h2
  have h6 : ("fresh-").length = 6 := rfl
  have h0 : ("").length = 0 := rfl
  rw [h6, h0] at h2
  omega

theorem rectBuild_fields (e : Element) (d : RectData) :
    (rectBuild e d).bound_elements = e.bound_elements ∧
    (rectBuild e d).container_id = e.container_id ∧
    (rectBuild e d).start_binding = e.start_binding ∧
    (rectBuild e d).end_binding = e.end_binding ∧
    (rectBuild e d).group_ids = e.group_ids := by
  unfold rectBuild
  repeat' split
  all_goals exact ⟨rfl, rfl, rfl, rfl, rfl⟩

theorem from_svg_rectangle_shape (rt : SvgNode) (b : Bool) (s : Nat)
    (r : List Element × Nat) (h : (from_svg_rectangle rt b) s = .ok r) :
    ∃ e, r.1 = [e] ∧ e.bound_elements = none ∧ e.container_id = none ∧
      e.start_binding = none ∧ e.end_binding = none ∧ e.group_ids = [] := by
  simp only [from_svg_rectangle, Element.mkDefault, M.bind_apply, M.pure_apply,
    M.random_id_apply, M.lift_apply] at h
  cases hd : rectReads rt b with
  | error e1 => simp [hd] at h
  | ok d =>
    simp only [hd, Except.ok.injEq] at h
    subst h
    exact ⟨_, rfl, (rectBuild_fields _ d).1, (rectBuild_fields _ d).2.1,
      (rectBuild_fields _ d).2.2.1, (rectBuild_fields _ d).2.2.2.1,
      (rectBuild_fields _ d).2.2.2.2⟩

theorem from_svg_text_shape (t : SvgNode) (s : Nat) (r : List Element × Nat)
    (h : (from_svg_text t) s = .ok r) :
    ∃ e, r.1 = [e] ∧ e.bound_elements = none ∧ e.container_id = none ∧
      e.start_binding = none ∧ e.end_binding = none ∧ e.group_ids = [] := by
  simp only [from_svg_text, Element.mkDefault, M.bind_apply, M.pure_apply,
    M.random_id_apply, Except.ok.injEq] at h
  subst h
  exact ⟨_, rfl, rfl, rfl, rfl, rfl, rfl⟩

/-- The fallback scan over one direct rect and one direct text child:
exactly two reference-free, untagged elements. -/
theorem fallbackScan_spec (svg rN tN : SvgNode)
    (hp : svg.findDirect (isNamed "path") = [])
    (hr : svg.findDirect (isNamed "rect") = [rN])
    (ht : svg.findDirect (isNamed "text") = [tN])
    (s : Nat) (out : List Element × Nat)
    (h : fallbackScan svg [] s = .ok out) :
    out.1.length = 2 ∧ ∀ e ∈ out.1, e.bound_elements = none ∧ e.container_id = none ∧
      e.start_binding = none ∧ e.end_binding = none ∧ e.group_ids = [] := by
  simp only [fallbackScan, hp, hr, ht, List.foldlM, List.enum, List.enumFrom,
    M.bind_apply, M.pure_apply] at h
  cases h1 : from_svg_rectangle rN true s with
  | error e1 => rw [h1] at h; simp at h
  | ok rs1 =>
    rw [h1] at h
    simp only [] at h
    obtain ⟨re, hre, hreb, hrec, hres, hree, hreg⟩ := from_svg_rectangle_shape rN true s rs1 h1
    rw [hre] at h
    simp only [List.nil_append] at h
    cases h2 : from_svg_text tN rs1.2 with
    | error e1 => rw [h2] at h; simp at h
    | ok ts1 =>
      rw [h2] at h
      simp only [] at h
      obtain ⟨te, hte, hteb, htec, htes, htee, hteg⟩ := from_svg_text_shape tN rs1.2 ts1 h2
      rw [hte] at h
      by_cases hlab : tN.classTokens.contains "relationshipLabel" = true
      · simp only [hlab, List.get?, List.set, List.length_cons, List.length_nil,
          List.range_succ, List.range_zero, List.foldl, List.take, List.map_cons,
          List.map_nil, List.nil_append, List.append_nil, M.pure_apply,
          Except.ok.injEq] at h
        subst h
        refine ⟨by simp, ?_⟩
        intro e he
        simp only [List.mem_append, List.mem_singleton, List.not_mem_nil, false_or] at he
        rcases he with he | he
        · subst he
          exact ⟨hreb, hrec, hres, hree, hreg⟩
        · subst he
          exact ⟨hteb, htec, htes, htee, hteg⟩
      · rw [Bool.not_eq_true] at hlab
        simp only [hlab, List.get?, List.length_cons, List.length_nil,
          List.range_succ, List.range_zero, List.foldl, List.take, List.map_cons,
          List.map_nil, List.nil_append, List.append_nil, M.pure_apply,
          Except.ok.injEq] at h
        subst h
        refine ⟨by simp, ?_⟩
        intro e he
        simp only [List.mem_append, List.mem_singleton, List.not_mem_nil, false_or] at he
        rcases he with he | he
        · subst he
          exact ⟨hreb, hrec, hres, hree, hreg⟩
        · subst he
          exact ⟨hteb, htec, htes, htee, hteg⟩

theorem treeStamp_length (tx ty : ℚ) (tid : String) (es : List Element) :
    (treeStamp tx ty tid es).length = es.length := by
  simp [treeStamp]

theorem treeStamp_mem (tx ty : ℚ) (tid : String) (es : List Element)
    (htid : tid ≠ "")
    (hall : ∀ e ∈ es, e.bound_elements = none ∧ e.container_id = none ∧
      e.start_binding = none ∧ e.end_binding = none ∧ e.group_ids = []) :
    ∀ e2 ∈ treeStamp tx ty tid es, e2.group_ids = [tid] ∧ e2.bound_elements = none ∧
      e2.container_id = none ∧ e2.start_binding = none ∧ e2.end_binding = none := by
  intro e2 he2
  simp only [treeStamp, List.mem_map] at he2
  obtain ⟨e, he, rfl⟩ := he2
  obtain ⟨hb, hc, hs, hen, hg⟩ := hall e he
  simp only [eq_false htid, if_false, ite_false, hg, List.isEmpty_nil, if_true, ite_true]
  exact ⟨trivial, hb, hc, hs, hen⟩

/-- C3: fallback reconstruction, amended. For a markup document with none
of the four recognized structural groups whose svg root has exactly one
direct child rect and one direct child text (and no direct g or path
children), Element.from_svg_tree returns exactly 2 elements and neither
carries any binding (no boundElements, containerId, start or end binding).
The claim also says their group_ids lists are empty; in the code the tree
walk always stamps the fresh tree group id on every element, so each of
the two elements has group_ids = [tree id] instead (C3_counterexample). -/
theorem C3_fallback_two_elements (fuel : Nat) (tree svg rN tN : SvgNode)
    (tx ty : ℚ) (s : Nat) (es : List Element) (s2 : Nat)
    (h1 : tree.find? (isGWithClass "edgePaths") = none)
    (h2 : tree.find? (isGWithClass "edgeLabels") = none)
    (h3 : tree.find? (isGWithClass "nodes") = none)
    (h4 : tree.find? (isGWithClass "clusters") = none)
    (hsvg : tree.find? (isNamed "svg") = some svg)
    (hg : svg.findDirect (isNamed "g") = [])
    (hp : svg.findDirect (isNamed "path") = [])
    (hr : svg.findDirect (isNamed "rect") = [rN])
    (htx : svg.findDirect (isNamed "text") = [tN])
    (hrun : from_svg_tree (fuel + 2) tree tx ty none s = .ok (es, s2)) :
    es.length = 2 ∧ ∀ e ∈ es, e.group_ids = ["fresh-" ++ toString s] ∧
      e.bound_elements = none ∧ e.container_id = none ∧
      e.start_binding = none ∧ e.end_binding = none := by
  have hrun2 : engine (fuel + 1 + 1) (.tree tree tx ty none) s = .ok (es, s2) := hrun
  simp only [engine, h1, h2, h3, h4, hsvg, hg, M.bind_apply, M.pure_apply,
    M.random_id_apply, List.isEmpty_nil, eq_self_iff_true, if_true, ite_true] at hrun2
  cases hfb : fallbackScan svg [] (s + 1) with
  | error e1 => rw [hfb] at hrun2; simp at hrun2
  | ok out =>
    rw [hfb] at hrun2
    simp only [Except.ok.injEq, Prod.mk.injEq] at hrun2
    obtain ⟨hes, _⟩ := hrun2
    subst hes
    obtain ⟨hlen, hall⟩ := fallbackScan_spec svg rN tN hp hr htx (s + 1) out hfb
    constructor
    · rw [treeStamp_length]; exact hlen
    · exact treeStamp_mem tx ty _ out.1 (fresh_ne_empty _) hall

set_option maxRecDepth 10000 in
/-- C3 witness: the two-element fallback document (one rect, one text under
the svg root); the amended theorem applies and both elements carry the
stamped tree group id and no bindings. -/
theorem C3_fallback_witness :
    (from_svg_tree 10 c3tree 0 0 none) 0 = .ok (c3elems, 4) ∧
    c3elems.length = 2 ∧ ∀ e ∈ c3elems, e.group_ids = ["fresh-0"] ∧
      e.bound_elements = none ∧ e.container_id = none ∧
      e.start_binding = none ∧ e.end_binding = none :=
  ⟨rfl,
   C3_fallback_two_elements 8 c3tree
     (.tag "svg" [] [.tag "rect" [("height", "30"), ("width", "40")] [],
        .tag "text" [("x", "5"), ("y", "6")] [.txt "hello"]])
     (.tag "rect" [("height", "30"), ("width", "40")] [])
     (.tag "text" [("x", "5"), ("y", "6")] [.txt "hello"])
     0 0 0 c3elems 4 rfl rfl rfl rfl rfl rfl rfl rfl rfl rfl⟩

set_option maxRecDepth 10000 in
/-- C3 counterexample: in the fallback document the two produced elements
do not have an empty group_ids list — both carry the stamped tree id. -/
theorem C3_counterexample :
    (from_svg_tree 10 c3tree 0 0 none) 0 = .ok (c3elems, 4) ∧
    ∀ e ∈ c3elems, e.group_ids = ["fresh-0"] ∧ e.group_ids ≠ [] := by
  constructor
  · rfl
  · decide

/-- C4: unknown path command, amended. For every pending token whose
leading character is a letter outside the dispatch set of the path while
loop, pathLoop raises the parse error naming the unrecognized command
token. The claim also says the failure is fatal only for that single path;
in the code nothing catches the exception, so the whole document walk
errors out (C4_counterexample: a document whose second edge path is valid
still reconstructs to nothing). -/
theorem C4_unknown_command (fuel : Nat) (st : PathSt) (tok : String)
    (dtail : List String) (c : Char) (cs : List Char)
    (hd : st.d = tok :: dtail)
    (htok : tok.data = c :: cs)
    (hc : c ∈ unhandledPathLetters) :
    pathLoop (fuel + 1) st = .error (.exception ("Unknown path command: " ++ tok)) := by
  fin_cases hc <;> simp [pathLoop, hd, htok]

/-- C4 witness: a pending Q1 token makes the loop fail, naming Q1. -/
theorem C4_unknown_command_witness :
    pathLoop 1 { elem := { type := TypeEnum.line }, curX := 0, curY := 0,
                 d := ["Q1", "1", "2", "2"] } =
      .error (.exception "Unknown path command: Q1") :=
  C4_unknown_command 0 _ "Q1" ["1", "2", "2"] 'Q' ['1'] rfl rfl (by decide)

set_option maxRecDepth 10000 in
/-- C4 counterexample: the document with one malformed (Q command) edge
path and one valid edge path does not return the valid unit — the whole
reconstruction aborts with the naming error, while the same document
without the malformed unit succeeds. -/
theorem C4_counterexample :
    (from_svg_tree 10 c4tree 0 0 none) 0 =
      .error (.exception "Unknown path command: Q1") ∧
    runOk ((from_svg_tree 10 c4treeGood 0 0 none) 0) = true := by
  constructor
  · rfl
  · rfl

/-- C5: missing expected child shapes, amended. An edge-path group with no
inner path is skipped: from_svg_edge_path returns no elements and leaves
the id supply untouched. An edge-label group with no inner span is not
skipped: from_svg_edge_label hits an attribute access on None and raises,
and since nothing catches it the whole document aborts (C5_counterexample
shows a document whose other units are valid erroring out). -/
theorem C5_missing_child (fuel : Nat) (ep el : SvgNode) (s : Nat)
    (hp : ep.find? (isNamed "path") = none)
    (hs : el.find? (isNamed "span") = none) :
    (from_svg_edge_path ep) s = .ok ([], s) ∧
    (from_svg_edge_label (fuel + 1) el) s =
      .error (.attributeError "NoneType object has no attribute get") := by
  constructor
  · simp [from_svg_edge_path, hp]
  · simp [from_svg_edge_label, engine, hs]

/-- C5 witness: a pathless edgePath group yields no elements; a spanless
edgeLabel group raises the NoneType attribute error. -/
theorem C5_missing_child_witness :
    (from_svg_edge_path (.tag "g" [("class", "edgePath"), ("id", "L-A-B")] [])) 0 =
      .ok ([], 0) ∧
    (from_svg_edge_label 10 (.tag "g" [("class", "edgeLabel")] [])) 0 =
      .error (.attributeError "NoneType object has no attribute get") :=
  C5_missing_child 9 (.tag "g" [("class", "edgePath"), ("id", "L-A-B")] [])
    (.tag "g" [("class", "edgeLabel")] []) 0 rfl rfl

set_option maxRecDepth 10000 in
/-- C5 counterexample: a document holding a pathless edge path (skipped),
a valid edge path and a spanless edge label does not continue past the
label — the whole reconstruction aborts, while the same document without
the spanless label succeeds. -/
theorem C5_counterexample :
    (from_svg_tree 10 c5tree 0 0 none) 0 =
      .error (.attributeError "NoneType object has no attribute get") ∧
    runOk ((from_svg_tree 10 c5treeGood 0 0 none) 0) = true := by
  constructor
  · rfl
  · rfl

theorem pyHalfEven_intCast (z : ℤ) : pyHalfEven (z : ℚ) = z := by
  unfold pyHalfEven
  simp only [Int.floor_intCast, sub_self]
  norm_num

theorem pyRound5_idem (q : ℚ) : pyRound5 (pyRound5 q) = pyRound5 q := by
  unfold pyRound5
  rw [div_mul_cancel₀ _ (by norm_num : (100000 : ℚ) ≠ 0), pyHalfEven_intCast]

theorem bcpF_two (a b : ℚ × ℚ) (t : ℚ) (s : Bool) :
    bcpF 2 [a, b] t s =
      pyRound5 ((if s then a.2 else a.1) * (1 - t) + (if s then b.2 else b.1) * t) := rfl

theorem bcpF_three (a b c : ℚ × ℚ) (t : ℚ) (s : Bool) :
    bcpF 3 [a, b, c] t s =
      pyRound5 (bcpF 2 [a, b] t s * (1 - t) + bcpF 2 [b, c] t s * t) := rfl

/-- De Casteljau at t = 1 on three points: the rounded endpoint. -/
theorem bcp3_at_one (p q r : ℚ × ℚ) (second : Bool) :
    bcp [p, q, r] 1 second = pyRound5 (if second then r.2 else r.1) := by
  show bcpF 3 [p, q, r] 1 second = _
  rw [bcpF_three, bcpF_two, bcpF_two]
  norm_num
  exact pyRound5_idem _

/-- C6: cubic flattening, amended. For a cubic-curve segment whose three
anchor-relative points are not collinear along either axis, the C branch
flattens by sampling at the fixed parametric step 0.1: exactly 11 sampled
points (t = 0.0 through 1.0), every coordinate a fixed point of the
5-decimal rounding. The claim also says the final sampled point equals the
declared endpoint exactly; in the code every interpolation level rounds to
5 decimals, so the final point is the rounded endpoint — equal to the
declared one only when it has at most 5 decimals — and in the collinear
case all three raw points are appended, not only the endpoint
(C6_counterexample). -/
theorem C6_cubic_flattening (ax ay x1 y1 x2 y2 nx ny : ℚ)
    (hx : ¬(x1 - ax = x2 - ax ∧ x2 - ax = nx - ax))
    (hy : ¬(y1 - ay = y2 - ay ∧ y2 - ay = ny - ay)) :
    curveC ax ay x1 y1 x2 y2 nx ny =
      bezier_curve_recursive [(x1 - ax, y1 - ay), (x2 - ax, y2 - ay), (nx - ax, ny - ay)] ∧
    (curveC ax ay x1 y1 x2 y2 nx ny).length = 11 ∧
    (∀ p ∈ curveC ax ay x1 y1 x2 y2 nx ny, pyRound5 p.1 = p.1 ∧ pyRound5 p.2 = p.2) ∧
    (curveC ax ay x1 y1 x2 y2 nx ny).getLast? =
      some (pyRound5 (nx - ax), pyRound5 (ny - ay)) := by
  have hifc : curveC ax ay x1 y1 x2 y2 nx ny =
      bezier_curve_recursive [(x1 - ax, y1 - ay), (x2 - ax, y2 - ay), (nx - ax, ny - ay)] := by
    show (if (¬(x1 - ax = x2 - ax ∧ x2 - ax = nx - ax)) ∧
             (¬(y1 - ay = y2 - ay ∧ y2 - ay = ny - ay)) then
            bezier_curve_recursive [(x1 - ax, y1 - ay), (x2 - ax, y2 - ay), (nx - ax, ny - ay)]
          else [(x1 - ax, y1 - ay), (x2 - ax, y2 - ay), (nx - ax, ny - ay)]) = _
    exact if_pos ⟨hx, hy⟩
  refine ⟨hifc, ?_, ?_, ?_⟩
  · rw [hifc]
    rfl
  · rw [hifc]
    intro p hp
    simp only [bezier_curve_recursive, List.mem_map] at hp
    obtain ⟨k, hk, rfl⟩ := hp
    constructor
    · show pyRound5 (bcpF 3 _ _ false) = bcpF 3 _ _ false
      rw [bcpF_three]
      exact pyRound5_idem _
    · show pyRound5 (bcpF 3 _ _ true) = bcpF 3 _ _ true
      rw [bcpF_three]
      exact pyRound5_idem _
  · rw [hifc]
    have hlast : (bezier_curve_recursive
        [(x1 - ax, y1 - ay), (x2 - ax, y2 - ay), (nx - ax, ny - ay)]).getLast? =
        some (bcp [(x1 - ax, y1 - ay), (x2 - ax, y2 - ay), (nx - ax, ny - ay)]
                (((10 : ℕ) : ℚ) / 10) false,
              bcp [(x1 - ax, y1 - ay), (x2 - ax, y2 - ay), (nx - ax, ny - ay)]
                (((10 : ℕ) : ℚ) / 10) true) := rfl
    rw [hlast]
    have h10 : (((10 : ℕ) : ℚ) / 10) = 1 := by norm_num
    rw [h10, bcp3_at_one, bcp3_at_one]
    rfl

/-- C6 witness: the cubic of c6path2 is not collinear on either axis; the
theorem yields the 11 samples and the rounded endpoint, whose value is
(1, 2) rather than the declared (1, 2.0000005). -/
theorem C6_cubic_flattening_witness :
    (curveC 0 0 0 1 1 2 1 2.0000005).length = 11 ∧
    (curveC 0 0 0 1 1 2 1 2.0000005).getLast? =
      some (pyRound5 (1 - 0), pyRound5 (2.0000005 - 0)) ∧
    pyRound5 ((2.0000005 : ℚ) - 0) = 2 :=
  ⟨(C6_cubic_flattening 0 0 0 1 1 2 1 2.0000005 (by norm_num) (by norm_num)).2.1,
   (C6_cubic_flattening 0 0 0 1 1 2 1 2.0000005 (by norm_num) (by norm_num)).2.2.2,
   by decide⟩

set_option maxRecDepth 10000 in
/-- C6 counterexample: the collinear cubic of c6path1 appends all three
raw points (4 points total after the initial anchor), not only the
endpoint; and for c6path2 the final flattened point is (1, 2), not the
declared endpoint (1, 2.0000005). -/
theorem C6_counterexample :
    (from_svg_path c6path1) 0 = .ok ([c6elem1], 1) ∧
    (c6elem1.points.getD []).length = 4 ∧
    (from_svg_path c6path2) 0 = .ok ([c6elem2], 1) ∧
    (c6elem2.points.getD []).getLast? = some (1, 2) ∧
    ((1 : ℚ), (2 : ℚ)) ≠ ((1 : ℚ), (2.0000005 : ℚ)) := by
  refine ⟨rfl, rfl, rfl, rfl, by norm_num⟩

/-- C7: the claim promises that for every valid M/L-only path-data string
(with implicit coordinate-pair repetition) the produced points list has
one entry per coordinate pair with (0,0) first. The re-injection step of
the parser truncates the token to the command letter plus the FIRST
CHARACTER of the next token, so the implicit pair "-3 4" of c7path makes
the parser call float on the mangled remainder and raise: the path
produces nothing at all, refuting the claim (code bug). -/
theorem C7_implicit_pair_valueError :
    tokenizePath "M 1 2 -3 4" = ["M", "1", "2", "-3", "4"] ∧
    (from_svg_path c7path) 0 =
      .error (.valueError "could not convert string to float: -") := by
  constructor
  · rfl
  · rfl


theorem tsfmClass_not_ws (c : Char) (h : tsfmClass c = true) : c.isWhitespace = false := by
  simp only [tsfmClass, Bool.or_eq_true, decide_eq_true_eq] at h
  rcases h with (h | h) | h
  · simp [Char.isDigit] at h
    simp [Char.isWhitespace]
    refine ⟨⟨⟨?_, ?_⟩, ?_⟩, ?_⟩ <;> (intro he; subst he; revert h; decide)
  · subst h; decide
  · subst h; decide

theorem takeWhile_append_stop (p : Char → Bool) (l1 : List Char) (c : Char)
    (rest : List Char) (h1 : ∀ x ∈ l1, p x = true) (hc : p c = false) :
    (l1 ++ c :: rest).takeWhile p = l1 ∧ (l1 ++ c :: rest).dropWhile p = c :: rest := by
  induction l1 with
  | nil => simp [List.takeWhile, List.dropWhile, hc]
  | cons a t ih =>
    have ha := h1 a (List.mem_cons_self a t)
    have iht := ih (fun x hx => h1 x (List.mem_cons_of_mem a hx))
    simp only [List.cons_append, List.takeWhile, List.dropWhile, ha, if_true, ite_true,
      List.append_eq, iht.1, iht.2]
    exact ⟨trivial, trivial⟩

/-- A well-formed translate argument is matched exactly: the two numeral
groups come back verbatim. -/
theorem matchTranslate_append (a b : Char) (t u : List Char)
    (h1a : ∀ c ∈ a :: t, tsfmClass c = true)
    (h2a : ∀ c ∈ b :: u, tsfmClass c = true) :
    matchTranslate ("translate(" ++ String.mk (a :: t) ++ "," ++ String.mk (b :: u) ++ ")") =
      some (String.mk (a :: t), String.mk (b :: u)) := by
  have hdata : ("translate(" ++ String.mk (a :: t) ++ "," ++ String.mk (b :: u) ++ ")").data =
      ("translate(").data ++ (a :: (t ++ ',' :: (b :: (u ++ [')'])))) := by
    simp [String.data_append]
  unfold matchTranslate
  rw [hdata]
  have hpre : ("translate(").data.isPrefixOf
      (("translate(").data ++ (a :: (t ++ ',' :: (b :: (u ++ [')']))))) = true := by
    rw [List.isPrefixOf_iff_prefix]
    exact List.prefix_append _ _
  rw [hpre]
  simp only [if_true, ite_true]
  rw [show (10 : ℕ) = ("translate(").data.length from rfl, List.drop_left]
  obtain ⟨ht1, hd1⟩ := takeWhile_append_stop tsfmClass (a :: t) ',' (b :: (u ++ [')']))
    h1a (by decide)
  simp only [List.cons_append] at ht1 hd1
  rw [ht1, hd1]
  simp only [List.isEmpty_cons, Bool.false_eq_true, if_false, ite_false]
  have hbws : b.isWhitespace = false := tsfmClass_not_ws b (h2a b (List.mem_cons_self b u))
  have hdw : List.dropWhile Char.isWhitespace (b :: (u ++ [')'])) = b :: (u ++ [')']) := by
    simp [List.dropWhile, hbws]
  obtain ⟨ht2, hd2⟩ := takeWhile_append_stop tsfmClass (b :: u) ')' [] h2a (by decide)
  simp only [List.cons_append] at ht2 hd2
  rw [hdw, ht2, hd2]
  simp only [List.isEmpty_cons, Bool.false_eq_true, if_false, ite_false]
  rfl

/-- C8: parse_transform, amended. A well-formed translate(<number>,
<number>) argument is mapped to that pair of floats; an absent or empty
attribute and any form the anchored translate match rejects (rotate,
scale, and so on) yield (0, 0). The claim also says every multi-function
composition yields (0, 0); the match is anchored only at the START of the
string, so a composition that begins with translate returns that
translate's pair instead (C8_counterexample). -/
theorem C8_parse_transform (a b : Char) (t u : List Char) (x y : ℚ)
    (h1a : ∀ c ∈ a :: t, tsfmClass c = true)
    (h2a : ∀ c ∈ b :: u, tsfmClass c = true)
    (hx : pyFloatE (String.mk (a :: t)) = .ok x)
    (hy : pyFloatE (String.mk (b :: u)) = .ok y) :
    parse_transform
      (some ("translate(" ++ String.mk (a :: t) ++ "," ++ String.mk (b :: u) ++ ")")) =
      .ok (x, y) ∧
    parse_transform none = .ok (0, 0) ∧
    parse_transform (some "") = .ok (0, 0) ∧
    (∀ s : String, matchTranslate s = none → parse_transform (some s) = .ok (0, 0)) := by
  refine ⟨?_, rfl, rfl, ?_⟩
  · have hne : ("translate(" ++ String.mk (a :: t) ++ "," ++ String.mk (b :: u) ++ ")") ≠ "" := by
      intro h
      have hlen := congrArg String.length h
      simp only [String.length_append] at hlen
      have e1 : ("translate(").length = 10 := rfl
      have e2 : (",").length = 1 := rfl
      have e3 : (")").length = 1 := rfl
      have e4 : ("").length = 0 := rfl
      rw [e1, e2, e3, e4] at hlen
      omega
    unfold parse_transform
    simp only []
    rw [if_neg hne, matchTranslate_append a b t u h1a h2a]
    simp only [hx, exceptBindOk, hy, exceptPureEq]
  · intro s hm
    unfold parse_transform
    simp only []
    by_cases hse : s = ""
    · rw [if_pos hse]
    · rw [if_neg hse, hm]

/-- C8 witness: the spec examples — translate(12.5,-3) maps to its pair,
rotate(5) and the empty attribute map to (0, 0). -/
theorem C8_parse_transform_witness :
    parse_transform (some "translate(12.5,-3)") = .ok (25/2, -3) ∧
    parse_transform (some "rotate(5)") = .ok (0, 0) ∧
    parse_transform (some "") = .ok (0, 0) :=
  ⟨(C8_parse_transform '1' '-' ['2', '.', '5'] ['3'] (25/2) (-3) (by decide) (by decide)
      (by decide) (by decide)).1,
   (C8_parse_transform '1' '-' ['2', '.', '5'] ['3'] (25/2) (-3) (by decide) (by decide)
      (by decide) (by decide)).2.2.2 "rotate(5)" rfl,
   rfl⟩

/-- C8 counterexample: a multi-function composition beginning with
translate is not mapped to (0, 0) — the anchored match picks up the
leading translate and ignores the rest. -/
theorem C8_counterexample :
    parse_transform (some "translate(1,2) scale(3)") = .ok (1, 2) ∧
    ((1 : ℚ), (2 : ℚ)) ≠ ((0 : ℚ), (0 : ℚ)) := by
  constructor
  · rfl
  · decide

/-- C9: elliptical arc approximation. For an A or a command whose seven
values pop successfully, the loop appends exactly one point — the arc's
terminal point, anchor-relative; for 'a' the terminal point is the cursor
plus the given deltas — and the radii, rotation and flag values are
discarded: the continuation state depends only on the last two values. -/
theorem C9_arc_terminal_point (fuel : Nat) (st : PathSt) (tok : String)
    (dtail d2 : List String) (c : Char) (cs : List Char)
    (rx ry ang laf sf dx dy : ℚ)
    (hd : st.d = tok :: dtail)
    (htok : tok.data = c :: cs)
    (hc : c = 'A' ∨ c = 'a')
    (hpop : popElts 7 st.d = .ok ([rx, ry, ang, laf, sf, dx, dy], d2)) :
    pathLoop (fuel + 1) st =
      pathLoop fuel
        { elem := appendPt st.elem
            ((if c = 'A' then dx else st.curX + dx) - st.elem.x,
             (if c = 'A' then dy else st.curY + dy) - st.elem.y),
          curX := (if c = 'A' then dx else st.curX + dx),
          curY := (if c = 'A' then dy else st.curY + dy), d := d2 } := by
  rw [hd] at hpop
  rcases hc with rfl | rfl
  · simp [pathLoop, hd, htok, hpop]
  · simp [pathLoop, hd, htok, hpop]

/-- C9 witness: an absolute arc at cursor (1,2) anchored at (1,2) with
terminal (7,8) appends the single anchor-relative point (6,6) and drops
the radii 5,5, rotation 0 and flags 0,1. -/
theorem C9_arc_terminal_point_witness :
    pathLoop 2 c9st =
      pathLoop 1 { elem := appendPt c9st.elem (6, 6), curX := 7, curY := 8, d := [] } ∧
    pathLoop 2 c9st = .ok { elem := { type := TypeEnum.line, id := "w0", x := 1, y := 2,
                                      points := some [(0, 0), (6, 6)] },
                            curX := 7, curY := 8, d := [] } :=
  ⟨C9_arc_terminal_point 1 c9st "A" ["5", "5", "0", "0", "1", "7", "8"] [] 'A' []
     5 5 0 0 1 7 8 rfl rfl (Or.inl rfl) rfl, rfl⟩

/-- A numeric stroke-width style value never changes the stroke width:
only the sharpness is touched. -/
theorem pathStyleApply_stroke_width_num (e : Element) (sty : List (String × StyleVal))
    (q : ℚ) (h : styleGet sty "stroke-width" = some (.num q)) :
    (pathStyleApply e sty).stroke_width = e.stroke_width := by
  unfold pathStyleApply
  rw [h]
  simp only []
  repeat' split
  all_goals rfl

/-- A string stroke-width style value is converted and assigned exactly
when it exceeds 2. -/
theorem pathStyleApply_stroke_width_str (e : Element) (sty : List (String × StyleVal))
    (sv : String) (h : styleGet sty "stroke-width" = some (.str sv)) :
    (pathStyleApply e sty).stroke_width =
      if 2 < size_attr_to_float (some sv) then size_attr_to_float (some sv)
      else e.stroke_width := by
  unfold pathStyleApply
  rw [h]
  simp only []
  repeat' split
  all_goals rfl

theorem from_svg_path_stroke_width (p : SvgNode) (s : Nat) (r : List Element × Nat)
    (h : (from_svg_path p) s = .ok r) :
    ∀ e ∈ r.1, e.stroke_width =
      (pathStyleApply { type := TypeEnum.line, id := "fresh-" ++ toString s }
        (parse_style (p.attr? "style"))).stroke_width := by
  intro e he
  simp only [from_svg_path, Element.mkDefault, M.bind_apply, M.pure_apply,
    M.random_id_apply, M.lift_apply] at h
  cases hd : p.reqAttr "d" with
  | error e1 => simp [hd] at h
  | ok dstr =>
    simp only [hd] at h
    cases hp : popElts 2 (tokenizePath dstr) with
    | error e1 => simp [hp] at h
    | ok v0d =>
      simp only [hp] at h
      obtain ⟨v0, d1⟩ := v0d
      dsimp only at h
      rcases v0 with _ | ⟨ax, _ | ⟨ay, _ | _⟩⟩
      case nil => simp at h
      case cons.nil => simp at h
      case cons.cons.cons => simp at h
      dsimp only at h
      cases hl : pathLoop d1.length
          (pathInit (pathStyleApply { type := TypeEnum.line, id := "fresh-" ++ toString s }
            (parse_style (p.attr? "style"))) ax ay d1) with
      | error e1 => rw [hl] at h; simp at h
      | ok stF =>
        rw [hl] at h
        simp only [M.lift_ok, M.bind_apply, M.pure_apply, Except.ok.injEq] at h
        subst h
        simp only [List.mem_singleton] at he
        subst he
        obtain ⟨_, _, p3⟩ := pathLoop_preserves _ _ _ hl
        show (_ : Element).stroke_width = _
        repeat' split
        all_goals (show stF.elem.stroke_width = _; rw [p3]; rfl)

/-- C10: stroke-width style handling of from_svg_path. A stroke-width
declared as a plain number (no unit suffix) is coerced to a number by
parse_style, and from_svg_path converts-and-assigns only string-typed
values, so every element of a successful run keeps the default stroke
width 1 regardless of the numeral's magnitude. A unit-suffixed value stays
a string and is assigned exactly when its numeral exceeds 2. -/
theorem C10_stroke_width (p : SvgNode) (s : Nat) (r : List Element × Nat)
    (h : (from_svg_path p) s = .ok r) :
    (∀ q : ℚ, styleGet (parse_style (p.attr? "style")) "stroke-width" = some (.num q) →
       ∀ e ∈ r.1, e.stroke_width = 1) ∧
    (∀ sv : String,
       styleGet (parse_style (p.attr? "style")) "stroke-width" = some (.str sv) →
       ∀ e ∈ r.1, e.stroke_width =
         if 2 < size_attr_to_float (some sv) then size_attr_to_float (some sv) else 1) := by
  constructor
  · intro q hq e he
    rw [from_svg_path_stroke_width p s r h e he,
      pathStyleApply_stroke_width_num _ _ q hq]
  · intro sv hsv e he
    rw [from_svg_path_stroke_width p s r h e he,
      pathStyleApply_stroke_width_str _ _ sv hsv]

set_option maxRecDepth 10000 in
/-- C10 witness: stroke-width:4 — a plain numeral of magnitude 4 — leaves
the produced element at the default stroke width 1, while the string
values 4px and 2px give widths 4 and 1. -/
theorem C10_stroke_width_witness :
    (from_svg_path c10path) 0 = .ok ([c10elem], 1) ∧
    styleGet (parse_style (c10path.attr? "style")) "stroke-width" = some (.num 4) ∧
    c10elem.stroke_width = 1 ∧
    (pathStyleApply { type := TypeEnum.line }
      (parse_style (some "stroke-width:4px"))).stroke_width = 4 ∧
    (pathStyleApply { type := TypeEnum.line }
      (parse_style (some "stroke-width:2px"))).stroke_width = 1 :=
  ⟨rfl, rfl,
   (C10_stroke_width c10path 0 ([c10elem], 1) rfl).1 4 rfl c10elem
     (List.mem_singleton.mpr rfl),
   rfl, rfl⟩
